import Mathlib

set_option maxHeartbeats 1000000

/-!
# A shallow embedding of the go-keycloak REST client

The client (`user.go` and the realm-role / requesting-party file) is a thin
binding over HTTP: every public operation builds one resty request, fires it,
and funnels the outcome through `checkForError`.  We embed the operations as
pure functions over an explicit environment (`Env`) that decides the outcome
of each HTTP request and of query-parameter serialization, an explicit heap
for the pointer-valued fields of the data-transfer structures, and an output
record (`OpOut`) carrying the returned client value, the final heap, the list
of HTTP requests issued, and the Go return values (status, result, error).
-/

namespace GoKeycloakModel

/-- Go errors as produced by `errors.New`, `errors.Wrap` and the API error
carrying the server's status code and body. -/
inductive GoError where
  | new (msg : String)
  | wrap (err : GoError) (msg : String)
  | apiError (code : Nat) (body : String)
  deriving Repr, DecidableEq

/-- The outermost message of a Go error (what the caller reads first). -/
def GoError.top : GoError → String
  | .new m => m
  | .wrap _ m => m
  | .apiError _ b => b

/-- Outermost message of an optional error, empty when the error is nil. -/
def errTopD : Option GoError → String
  | none => ""
  | some e => e.top

/-! ## Heap model for pointer-valued fields

The data-transfer structures use pointer fields (`*string`, `*bool`,
`*[]string`).  We model pointers as indices into an explicit heap, so that a
write through a caller-supplied pointer would be observable. -/

abbrev Ptr := Nat

inductive HVal where
  | str (s : String)
  | strs (l : List String)
  | bool (b : Bool)
  deriving Repr, DecidableEq

abbrev Heap := List HVal

def readStr (h : Heap) (p : Ptr) : String :=
  match h.getD p (.str "") with
  | .str s => s
  | _ => ""

def readStrs (h : Heap) (p : Ptr) : List String :=
  match h.getD p (.strs []) with
  | .strs l => l
  | _ => []

def readBool (h : Heap) (p : Ptr) : Bool :=
  match h.getD p (.bool false) with
  | .bool b => b
  | _ => false

/-- `StringP` allocates a fresh cell holding the string and returns a pointer
to it (the Go helper returns `&s`). -/
def StringP (h : Heap) (s : String) : Heap × Ptr :=
  (h ++ [.str s], h.length)

/-- Taking the address of a bool local (`&temporary`). -/
def BoolP (h : Heap) (b : Bool) : Heap × Ptr :=
  (h ++ [.bool b], h.length)

/-- Taking the address of a string-slice local (`&permissions`). -/
def StrsP (h : Heap) (l : List String) : Heap × Ptr :=
  (h ++ [.strs l], h.length)

/-- `PString` dereferences an optional string pointer, giving `""` for nil. -/
def PString (h : Heap) (p : Option Ptr) : String :=
  match p with
  | none => ""
  | some a => readStr h a

/-- `PStringSlice` dereferences an optional string-slice pointer, giving the
empty slice for nil. -/
def PStringSlice (h : Heap) (p : Option Ptr) : List String :=
  match p with
  | none => []
  | some a => readStrs h a

/-! ## Data-transfer structures

Modelled from the spec: the DTO definitions are not among the sources; per
the spec they are "plain data-transfer structures (tokens, users, roles,
groups, sessions, permission decisions) that mirror the external server's
JSON schemas verbatim — they hold no invariants beyond optional field
present or absent".  We keep the fields the sources dereference and a few
representative optional fields. -/

structure User where
  ID : Option Ptr := none
  Username : Option Ptr := none
  Email : Option Ptr := none
  Enabled : Option Ptr := none
  deriving Repr, DecidableEq, Inhabited

structure Role where
  ID : Option Ptr := none
  Name : Option Ptr := none
  Description : Option Ptr := none
  deriving Repr, DecidableEq, Inhabited

structure Group where
  ID : Option Ptr := none
  Name : Option Ptr := none
  deriving Repr, DecidableEq, Inhabited

structure UserSessionRepresentation where
  ID : Option Ptr := none
  Username : Option Ptr := none
  deriving Repr, DecidableEq, Inhabited

structure FederatedIdentityRepresentation where
  IdentityProvider : Option Ptr := none
  UserID : Option Ptr := none
  UserName : Option Ptr := none
  deriving Repr, DecidableEq, Inhabited

structure RequestingPartyPermission where
  RSID : Option Ptr := none
  RSName : Option Ptr := none
  deriving Repr, DecidableEq, Inhabited

structure RequestingPartyPermissionDecision where
  Result : Option Ptr := none
  deriving Repr, DecidableEq, Inhabited

structure JWT where
  AccessToken : String := ""
  RefreshToken : String := ""
  ExpiresIn : Nat := 0
  deriving Repr, DecidableEq, Inhabited

structure SetPasswordRequest where
  «Type» : Option Ptr := none
  Password : Option Ptr := none
  Temporary : Option Ptr := none
  deriving Repr, DecidableEq, Inhabited

structure RequestingPartyTokenOptions where
  GrantType : Option Ptr := none
  Audience : Option Ptr := none
  ResponseMode : Option Ptr := none
  Permissions : Option Ptr := none
  deriving Repr, DecidableEq, Inhabited

/-- Modelled from the spec: the params structs are not among the sources;
per the spec they are "typed option-structs" feeding query-string building. -/
structure GetUsersParams where
  Username : Option Ptr := none
  Search : Option Ptr := none
  deriving Repr, DecidableEq, Inhabited

structure GetGroupsParams where
  Search : Option Ptr := none
  deriving Repr, DecidableEq, Inhabited

structure GetRoleParams where
  Search : Option Ptr := none
  deriving Repr, DecidableEq, Inhabited

structure GetUsersByRoleParams where
  Max : Option Ptr := none
  deriving Repr, DecidableEq, Inhabited

/-- The possible params-struct values handed to query-string building. -/
inductive ParamsVal where
  | users (p : GetUsersParams)
  | groups (p : GetGroupsParams)
  | roles (p : GetRoleParams)
  | usersByRole (p : GetUsersByRoleParams)
  deriving Repr, DecidableEq

/-! ## Request and response model -/

/-- Request bodies the operations set via `SetBody`. -/
inductive Body where
  | none
  | userBody (u : User)
  | roleBody (r : Role)
  | rolesBody (rs : List Role)
  | passwordBody (p : SetPasswordRequest)
  | fedIdBody (f : FederatedIdentityRepresentation)
  deriving Repr, DecidableEq, Inhabited

/-- Decoded response payloads the environment can hand back; `SetResult`
deserializes the 2xx body into the operation's result type. -/
inductive BodyData where
  | none
  | user (u : User)
  | users (l : List User)
  | count (n : Int)
  | role (r : Role)
  | roles (l : List Role)
  | groups (l : List Group)
  | sessions (l : List UserSessionRepresentation)
  | fedIds (l : List FederatedIdentityRepresentation)
  | rpPermissions (l : List RequestingPartyPermission)
  | rpDecision (d : RequestingPartyPermissionDecision)
  | jwt (j : JWT)
  deriving Repr, DecidableEq, Inhabited

def BodyData.asUser : BodyData → User
  | .user u => u
  | _ => {}

def BodyData.asUsers : BodyData → List User
  | .users l => l
  | _ => []

def BodyData.asCount : BodyData → Int
  | .count n => n
  | _ => 0

def BodyData.asRole : BodyData → Role
  | .role r => r
  | _ => {}

def BodyData.asRoles : BodyData → List Role
  | .roles l => l
  | _ => []

def BodyData.asGroups : BodyData → List Group
  | .groups l => l
  | _ => []

def BodyData.asSessions : BodyData → List UserSessionRepresentation
  | .sessions l => l
  | _ => []

def BodyData.asFedIds : BodyData → List FederatedIdentityRepresentation
  | .fedIds l => l
  | _ => []

def BodyData.asRPPermissions : BodyData → List RequestingPartyPermission
  | .rpPermissions l => l
  | _ => []

def BodyData.asRPDecision : BodyData → RequestingPartyPermissionDecision
  | .rpDecision d => d
  | _ => {}

def BodyData.asJWT : BodyData → JWT
  | .jwt j => j
  | _ => {}

/-- One concrete HTTP request as put on the wire. -/
structure HttpRequest where
  verb : String := ""
  url : String := ""
  bearer : String := ""
  queryParams : List (String × String) := []
  formData : List (String × String) := []
  body : Body := .none
  deriving Repr, DecidableEq, Inhabited

/-- The resty response visible to the client: the server's status code, the
raw body, the created-resource ID carried in the response, and the decoded
payload.  On a transport failure resty still hands back a response value, with
status code 0 and no payload. -/
structure HttpResponse where
  statusCode : Nat := 0
  body : String := ""
  createdID : String := ""
  bodyData : BodyData := .none
  deriving Repr, DecidableEq, Inhabited

/-- Outcome of putting a request on the wire. -/
inductive HttpOutcome where
  | success (resp : HttpResponse)
  | transportError (msg : String)

/-- The environment: how the world answers each HTTP request, and how
query-parameter serialization behaves (its code is not among the sources, so
its behavior is kept abstract). -/
structure Env where
  http : HttpRequest → HttpOutcome
  queryParams : ParamsVal → Except GoError (List (String × String))

/-- Firing a request: on success resty returns the server response and a nil
error; on a transport failure it returns a zero-status response and the error. -/
def doRequest (env : Env) (req : HttpRequest) : HttpResponse × Option GoError :=
  match env.http req with
  | .success r => (r, none)
  | .transportError m => ({}, some (.new m))

/-- The response the HTTP layer reports for a request (server response, or
the zero-status response on transport failure). -/
def respOf (env : Env) (req : HttpRequest) : HttpResponse :=
  (doRequest env req).1

/-- Did the HTTP call fail: transport failure, or a non-2xx status. -/
def is2xxB (n : Nat) : Bool :=
  200 ≤ n && n < 300

def httpFailed (env : Env) (req : HttpRequest) : Bool :=
  match env.http req with
  | .transportError _ => true
  | .success r => !is2xxB r.statusCode

/-- Did query-parameter serialization fail for this params value. -/
def serFailed (env : Env) (pv : ParamsVal) : Bool :=
  match env.queryParams pv with
  | .error _ => true
  | .ok _ => false

/-- Modelled from the spec: `GetQueryParams` is not among the sources; per
the spec the client performs "query-string building" from typed
option-structs, which the callers treat as fallible.  Its behavior is the
environment's. -/
def GetQueryParams (env : Env) (pv : ParamsVal) : Except GoError (List (String × String)) :=
  env.queryParams pv

/-- Modelled from the spec: `checkForError` is not among the sources (every
operation funnels its HTTP outcome through it).  Per the spec, "any
non-success HTTP status or transport failure is wrapped with a static
per-call description and returned to the caller; no retries, no local
recovery, no error classification beyond pass-through of the server's status
code and body". -/
def checkForError (resp : HttpResponse) (err : Option GoError) (errMessage : String) : Option GoError :=
  match err with
  | some e => some (.wrap e errMessage)
  | none =>
    if is2xxB resp.statusCode then none
    else some (.wrap (.apiError resp.statusCode resp.body) errMessage)

/-- Modelled from the spec: `getID` is not among the sources; `CreateUser`
"returns it's userID", so it extracts the created resource's ID from the
response. -/
def getID (resp : HttpResponse) : String :=
  resp.createdID

/-! ## The client value and URL templating -/

structure GoKeycloakConfig where
  openIDConnect : String := "protocol/openid-connect"
  deriving Repr, DecidableEq, Inhabited

structure GoKeycloak where
  basePath : String := ""
  Config : GoKeycloakConfig := {}
  deriving Repr, DecidableEq, Inhabited

/-- Modelled from the spec: `getRealmURL` is not among the sources; per the
spec the client performs "URL templating" against the server's REST surface,
here the realm URL `basePath/realms/realm/path...`. -/
def GoKeycloak.getRealmURL (g : GoKeycloak) (realm : String) (path : List String) : String :=
  String.intercalate "/" (g.basePath :: "realms" :: realm :: path)

/-- Modelled from the spec: `getAdminRealmURL` is not among the sources; per
the spec it templates the admin URL `basePath/admin/realms/realm/path...`. -/
def GoKeycloak.getAdminRealmURL (g : GoKeycloak) (realm : String) (path : List String) : String :=
  String.intercalate "/" (g.basePath :: "admin" :: "realms" :: realm :: path)

/-! ## The resty request builder -/

/-- A request under construction, as built by the resty fluent chain. -/
structure RestyRequest where
  bearer : String := ""
  queryParams : List (String × String) := []
  formData : List (String × String) := []
  body : Body := .none
  deriving Repr, DecidableEq, Inhabited

/-- Modelled from the spec: `GetRequestWithBearerAuth` is not among the
sources; it starts a fresh request carrying the bearer token and the caller's
context, with no parameters set yet. -/
def GoKeycloak.GetRequestWithBearerAuth (_g : GoKeycloak) (token : String) : RestyRequest :=
  { bearer := token }

def RestyRequest.SetBody (r : RestyRequest) (b : Body) : RestyRequest :=
  { r with body := b }

def RestyRequest.SetQueryParams (r : RestyRequest) (qp : List (String × String)) : RestyRequest :=
  { r with queryParams := qp }

def RestyRequest.SetFormData (r : RestyRequest) (fd : List (String × String)) : RestyRequest :=
  { r with formData := r.formData ++ fd }

def RestyRequest.SetFormDataFromValues (r : RestyRequest) (vals : List (String × List String)) : RestyRequest :=
  { r with formData := r.formData ++ vals.flatMap (fun kv => kv.2.map (fun v => (kv.1, v))) }

def RestyRequest.Get (r : RestyRequest) (url : String) : HttpRequest :=
  { verb := "GET", url := url, bearer := r.bearer, queryParams := r.queryParams,
    formData := r.formData, body := r.body }

def RestyRequest.Post (r : RestyRequest) (url : String) : HttpRequest :=
  { verb := "POST", url := url, bearer := r.bearer, queryParams := r.queryParams,
    formData := r.formData, body := r.body }

def RestyRequest.Put (r : RestyRequest) (url : String) : HttpRequest :=
  { verb := "PUT", url := url, bearer := r.bearer, queryParams := r.queryParams,
    formData := r.formData, body := r.body }

def RestyRequest.Delete (r : RestyRequest) (url : String) : HttpRequest :=
  { verb := "DELETE", url := url, bearer := r.bearer, queryParams := r.queryParams,
    formData := r.formData, body := r.body }

/-- Modelled from the spec: the `FormData` serializer of
`RequestingPartyTokenOptions` is not among the sources; per the spec
("parameter marshaling plus one HTTP call") it renders each non-nil scalar
option field as the correspondingly named form value. -/
def RequestingPartyTokenOptions.FormData (o : RequestingPartyTokenOptions) (h : Heap) : List (String × String) :=
  (match o.GrantType with
    | some p => [("grant_type", readStr h p)]
    | none => []) ++
  (match o.Audience with
    | some p => [("audience", readStr h p)]
    | none => []) ++
  (match o.ResponseMode with
    | some p => [("response_mode", readStr h p)]
    | none => [])

/-! ## Operation outcomes -/

/-- Everything a call leaves behind: the client value as seen after the call,
the final heap, the requests issued, and the Go return values. -/
structure OpOut (α : Type) where
  client : GoKeycloak
  heap : Heap
  trace : List HttpRequest
  status : Nat
  result : α
  err : Option GoError

/-- The single request an operation sent (the default request if none was). -/
def theReq {α : Type} (out : OpOut α) : HttpRequest :=
  out.trace.headD {}

/-- The Go pattern `return resp.StatusCode(), checkForError(resp, err, errMessage)`
after firing the built request. -/
def statusAndCheck (g : GoKeycloak) (env : Env) (h : Heap) (req : HttpRequest)
    (errMessage : String) : OpOut Unit :=
  let (resp, rerr) := doRequest env req
  { client := g, heap := h, trace := [req], status := resp.statusCode,
    result := (), err := checkForError resp rerr errMessage }

/-- The Go pattern guarding the decoded result behind `checkForError`:
nil result with the error, or the decoded body with a nil error. -/
def resultOrError {α : Type} (g : GoKeycloak) (env : Env) (h : Heap) (req : HttpRequest)
    (errMessage : String) (decode : HttpResponse → α) : OpOut (Option α) :=
  let (resp, rerr) := doRequest env req
  match checkForError resp rerr errMessage with
  | some e =>
    { client := g, heap := h, trace := [req], status := resp.statusCode,
      result := none, err := some e }
  | none =>
    { client := g, heap := h, trace := [req], status := resp.statusCode,
      result := some (decode resp), err := none }

/-- The Go pattern of the create calls: empty ID with the error, or the
created resource's ID with a nil error. -/
def idOrError (g : GoKeycloak) (env : Env) (h : Heap) (req : HttpRequest)
    (errMessage : String) : OpOut String :=
  let (resp, rerr) := doRequest env req
  match checkForError resp rerr errMessage with
  | some e =>
    { client := g, heap := h, trace := [req], status := resp.statusCode,
      result := "", err := some e }
  | none =>
    { client := g, heap := h, trace := [req], status := resp.statusCode,
      result := getID resp, err := none }

/-! ## Operations from `user.go` -/

/-- `CreateUser` creates the given user in the given realm and returns its
userID. -/
def GoKeycloak.CreateUser (g : GoKeycloak) (env : Env) (h : Heap)
    (token realm : String) (user : User) : OpOut String :=
  let errMessage := "could not create user"
  idOrError g env h
    (((g.GetRequestWithBearerAuth token).SetBody (.userBody user)).Post
      (g.getAdminRealmURL realm ["users"]))
    errMessage

/-- `DeleteUser` deletes a given user. -/
def GoKeycloak.DeleteUser (g : GoKeycloak) (env : Env) (h : Heap)
    (token realm userID : String) : OpOut Unit :=
  let errMessage := "could not delete user"
  statusAndCheck g env h
    ((g.GetRequestWithBearerAuth token).Delete
      (g.getAdminRealmURL realm ["users", userID]))
    errMessage

/-- `GetUserByID` fetches a user from the given realm with the given userID,
rejecting an empty userID locally with a 400 before any request is made. -/
def GoKeycloak.GetUserByID (g : GoKeycloak) (env : Env) (h : Heap)
    (accessToken realm userID : String) : OpOut (Option User) :=
  let errMessage := "could not get user by id"
  if userID = "" then
    { client := g, heap := h, trace := [], status := 400, result := none,
      err := some (.wrap (.new "userID shall not be empty") errMessage) }
  else
    resultOrError g env h
      ((g.GetRequestWithBearerAuth accessToken).Get
        (g.getAdminRealmURL realm ["users", userID]))
      errMessage (fun resp => resp.bodyData.asUser)

/-- `GetUserCount` gets the user count in the realm; on an HTTP failure it
returns `-1` and wraps the checked error a second time. -/
def GoKeycloak.GetUserCount (g : GoKeycloak) (env : Env) (h : Heap)
    (token realm : String) (params : GetUsersParams) : OpOut Int :=
  let errMessage := "could not get user count"
  match GetQueryParams env (.users params) with
  | .error e =>
    { client := g, heap := h, trace := [], status := 400, result := 0,
      err := some (.wrap e errMessage) }
  | .ok queryParams =>
    let req := (((g.GetRequestWithBearerAuth token).SetQueryParams queryParams).Get
      (g.getAdminRealmURL realm ["users", "count"]))
    let (resp, rerr) := doRequest env req
    match checkForError resp rerr errMessage with
    | some e =>
      { client := g, heap := h, trace := [req], status := resp.statusCode,
        result := -1, err := some (.wrap e errMessage) }
    | none =>
      { client := g, heap := h, trace := [req], status := resp.statusCode,
        result := resp.bodyData.asCount, err := none }

/-- `GetUserGroups` gets all groups for the user. -/
def GoKeycloak.GetUserGroups (g : GoKeycloak) (env : Env) (h : Heap)
    (token realm userID : String) (params : GetGroupsParams) : OpOut (Option (List Group)) :=
  let errMessage := "could not get user groups"
  match GetQueryParams env (.groups params) with
  | .error e =>
    { client := g, heap := h, trace := [], status := 400, result := none,
      err := some (.wrap e errMessage) }
  | .ok queryParams =>
    resultOrError g env h
      (((g.GetRequestWithBearerAuth token).SetQueryParams queryParams).Get
        (g.getAdminRealmURL realm ["users", userID, "groups"]))
      errMessage (fun resp => resp.bodyData.asGroups)

/-- `GetUsers` gets all users in the realm. -/
def GoKeycloak.GetUsers (g : GoKeycloak) (env : Env) (h : Heap)
    (token realm : String) (params : GetUsersParams) : OpOut (Option (List User)) :=
  let errMessage := "could not get users"
  match GetQueryParams env (.users params) with
  | .error e =>
    { client := g, heap := h, trace := [], status := 400, result := none,
      err := some (.wrap e errMessage) }
  | .ok queryParams =>
    resultOrError g env h
      (((g.GetRequestWithBearerAuth token).SetQueryParams queryParams).Get
        (g.getAdminRealmURL realm ["users"]))
      errMessage (fun resp => resp.bodyData.asUsers)

/-- `GetUsersByRoleName` returns all users having a given role. -/
def GoKeycloak.GetUsersByRoleName (g : GoKeycloak) (env : Env) (h : Heap)
    (token realm roleName : String) (params : GetUsersByRoleParams) : OpOut (Option (List User)) :=
  let errMessage := "could not get users by role name"
  match GetQueryParams env (.usersByRole params) with
  | .error e =>
    { client := g, heap := h, trace := [], status := 400, result := none,
      err := some (.wrap e errMessage) }
  | .ok queryParams =>
    resultOrError g env h
      (((g.GetRequestWithBearerAuth token).SetQueryParams queryParams).Get
        (g.getAdminRealmURL realm ["roles", roleName, "users"]))
      errMessage (fun resp => resp.bodyData.asUsers)

/-- `GetUsersByClientRoleName` returns all users having a given client role;
note that a query-params failure is returned unwrapped here. -/
def GoKeycloak.GetUsersByClientRoleName (g : GoKeycloak) (env : Env) (h : Heap)
    (token realm idOfClient roleName : String) (params : GetUsersByRoleParams) :
    OpOut (Option (List User)) :=
  let errMessage := "could not get users by client role name"
  match GetQueryParams env (.usersByRole params) with
  | .error e =>
    { client := g, heap := h, trace := [], status := 400, result := none,
      err := some e }
  | .ok queryParams =>
    resultOrError g env h
      (((g.GetRequestWithBearerAuth token).SetQueryParams queryParams).Get
        (g.getAdminRealmURL realm ["clients", idOfClient, "roles", roleName, "users"]))
      errMessage (fun resp => resp.bodyData.asUsers)

/-- `SetPassword` sets a new password for the user with the given id; the
request body takes the addresses of the password and temporary arguments and
a fresh `"password"` type string. -/
def GoKeycloak.SetPassword (g : GoKeycloak) (env : Env) (h : Heap)
    (token userID realm password : String) (temporary : Bool) : OpOut Unit :=
  let errMessage := "could not set password"
  let (h, pPassword) := StringP h password
  let (h, pTemporary) := BoolP h temporary
  let (h, pType) := StringP h "password"
  let requestBody : SetPasswordRequest :=
    { Password := some pPassword, Temporary := some pTemporary, «Type» := some pType }
  statusAndCheck g env h
    (((g.GetRequestWithBearerAuth token).SetBody (.passwordBody requestBody)).Put
      (g.getAdminRealmURL realm ["users", userID, "reset-password"]))
    errMessage

/-- `UpdateUser` updates a given user, addressing it by its dereferenced ID. -/
def GoKeycloak.UpdateUser (g : GoKeycloak) (env : Env) (h : Heap)
    (token realm : String) (user : User) : OpOut Unit :=
  let errMessage := "could not update user"
  statusAndCheck g env h
    (((g.GetRequestWithBearerAuth token).SetBody (.userBody user)).Put
      (g.getAdminRealmURL realm ["users", PString h user.ID]))
    errMessage

/-- `AddUserToGroup` puts the given user into the given group. -/
def GoKeycloak.AddUserToGroup (g : GoKeycloak) (env : Env) (h : Heap)
    (token realm userID groupID : String) : OpOut Unit :=
  let errMessage := "could not add user to group"
  statusAndCheck g env h
    ((g.GetRequestWithBearerAuth token).Put
      (g.getAdminRealmURL realm ["users", userID, "groups", groupID]))
    errMessage

/-- `DeleteUserFromGroup` deletes the given user from the given group. -/
def GoKeycloak.DeleteUserFromGroup (g : GoKeycloak) (env : Env) (h : Heap)
    (token realm userID groupID : String) : OpOut Unit :=
  let errMessage := "could not delete user from group"
  statusAndCheck g env h
    ((g.GetRequestWithBearerAuth token).Delete
      (g.getAdminRealmURL realm ["users", userID, "groups", groupID]))
    errMessage

/-- `GetUserSessions` returns sessions associated with the user. -/
def GoKeycloak.GetUserSessions (g : GoKeycloak) (env : Env) (h : Heap)
    (token realm userID : String) : OpOut (Option (List UserSessionRepresentation)) :=
  let errMessage := "could not get user sessions"
  resultOrError g env h
    ((g.GetRequestWithBearerAuth token).Get
      (g.getAdminRealmURL realm ["users", userID, "sessions"]))
    errMessage (fun resp => resp.bodyData.asSessions)

/-- `GetUserOfflineSessionsForClient` returns offline sessions for user and client. -/
def GoKeycloak.GetUserOfflineSessionsForClient (g : GoKeycloak) (env : Env) (h : Heap)
    (token realm userID idOfClient : String) : OpOut (Option (List UserSessionRepresentation)) :=
  let errMessage := "could not get user offline sessions for client"
  resultOrError g env h
    ((g.GetRequestWithBearerAuth token).Get
      (g.getAdminRealmURL realm ["users", userID, "offline-sessions", idOfClient]))
    errMessage (fun resp => resp.bodyData.asSessions)

/-- `AddClientRolesToUser` adds client-level role mappings. -/
def GoKeycloak.AddClientRolesToUser (g : GoKeycloak) (env : Env) (h : Heap)
    (token realm idOfClient userID : String) (roles : List Role) : OpOut Unit :=
  let errMessage := "could not add client role to user"
  statusAndCheck g env h
    (((g.GetRequestWithBearerAuth token).SetBody (.rolesBody roles)).Post
      (g.getAdminRealmURL realm ["users", userID, "role-mappings", "clients", idOfClient]))
    errMessage

/-- Deprecated `AddClientRoleToUser`, delegating to `AddClientRolesToUser`. -/
def GoKeycloak.AddClientRoleToUser (g : GoKeycloak) (env : Env) (h : Heap)
    (token realm idOfClient userID : String) (roles : List Role) : OpOut Unit :=
  g.AddClientRolesToUser env h token realm idOfClient userID roles

/-- `DeleteClientRolesFromUser` deletes client-level role mappings. -/
def GoKeycloak.DeleteClientRolesFromUser (g : GoKeycloak) (env : Env) (h : Heap)
    (token realm idOfClient userID : String) (roles : List Role) : OpOut Unit :=
  let errMessage := "could not delete client role from user"
  statusAndCheck g env h
    (((g.GetRequestWithBearerAuth token).SetBody (.rolesBody roles)).Delete
      (g.getAdminRealmURL realm ["users", userID, "role-mappings", "clients", idOfClient]))
    errMessage

/-- Deprecated `DeleteClientRoleFromUser`, delegating to `DeleteClientRolesFromUser`. -/
def GoKeycloak.DeleteClientRoleFromUser (g : GoKeycloak) (env : Env) (h : Heap)
    (token realm idOfClient userID : String) (roles : List Role) : OpOut Unit :=
  g.DeleteClientRolesFromUser env h token realm idOfClient userID roles

/-- `GetUserFederatedIdentities` gets all user federated identities; note the
success branch returns the original transport error variable (necessarily nil
there). -/
def GoKeycloak.GetUserFederatedIdentities (g : GoKeycloak) (env : Env) (h : Heap)
    (token realm userID : String) : OpOut (Option (List FederatedIdentityRepresentation)) :=
  let errMessage := "could not get user federated identities"
  let req := ((g.GetRequestWithBearerAuth token).Get
    (g.getAdminRealmURL realm ["users", userID, "federated-identity"]))
  let (resp, rerr) := doRequest env req
  match checkForError resp rerr errMessage with
  | some e =>
    { client := g, heap := h, trace := [req], status := resp.statusCode,
      result := none, err := some e }
  | none =>
    { client := g, heap := h, trace := [req], status := resp.statusCode,
      result := some resp.bodyData.asFedIds, err := rerr }

/-- `CreateUserFederatedIdentity` creates a user federated identity. -/
def GoKeycloak.CreateUserFederatedIdentity (g : GoKeycloak) (env : Env) (h : Heap)
    (token realm userID providerID : String)
    (federatedIdentityRep : FederatedIdentityRepresentation) : OpOut Unit :=
  let errMessage := "could not create user federeated identity"
  statusAndCheck g env h
    (((g.GetRequestWithBearerAuth token).SetBody (.fedIdBody federatedIdentityRep)).Post
      (g.getAdminRealmURL realm ["users", userID, "federated-identity", providerID]))
    errMessage

/-- `DeleteUserFederatedIdentity` deletes a user federated identity. -/
def GoKeycloak.DeleteUserFederatedIdentity (g : GoKeycloak) (env : Env) (h : Heap)
    (token realm userID providerID : String) : OpOut Unit :=
  let errMessage := "could not delete user federeated identity"
  statusAndCheck g env h
    ((g.GetRequestWithBearerAuth token).Delete
      (g.getAdminRealmURL realm ["users", userID, "federated-identity", providerID]))
    errMessage

/-! ## Operations from the requesting-party / realm-role file -/

/-- The request `getRequestingParty` builds: the options' form data, plus one
`permission` form value per element of the dereferenced Permissions slice,
posted to the realm's openid-connect token endpoint. -/
def GoKeycloak.requestingPartyRequest (g : GoKeycloak) (h : Heap)
    (token realm : String) (options : RequestingPartyTokenOptions) : HttpRequest :=
  ((((g.GetRequestWithBearerAuth token).SetFormData (options.FormData h)).SetFormDataFromValues
      [("permission", PStringSlice h options.Permissions)]).Post
    (g.getRealmURL realm [g.Config.openIDConnect, "token"]))

/-- `getRequestingParty` fires that request; it returns the built request
alongside the resty response and transport error. -/
def GoKeycloak.getRequestingParty (g : GoKeycloak) (env : Env) (h : Heap)
    (token realm : String) (options : RequestingPartyTokenOptions) :
    HttpRequest × HttpResponse × Option GoError :=
  let req := g.requestingPartyRequest h token realm options
  let (resp, rerr) := doRequest env req
  (req, resp, rerr)

/-- `GetRequestingPartyPermissions` forces the response mode to
`"permissions"` (through a fresh pointer on its local copy of the options)
before posting via `getRequestingParty` and checking the outcome. -/
def GoKeycloak.GetRequestingPartyPermissions (g : GoKeycloak) (env : Env) (h : Heap)
    (token realm : String) (options : RequestingPartyTokenOptions) :
    OpOut (Option (List RequestingPartyPermission)) :=
  let errMessage := "could not get requesting party token"
  let (h, pMode) := StringP h "permissions"
  let options := { options with ResponseMode := some pMode }
  resultOrError g env h (g.requestingPartyRequest h token realm options)
    errMessage (fun resp => resp.bodyData.asRPPermissions)

/-- `GetRequestingPartyPermissionDecision` forces the response mode to
`"decision"` before posting via `getRequestingParty` and checking the
outcome. -/
def GoKeycloak.GetRequestingPartyPermissionDecision (g : GoKeycloak) (env : Env) (h : Heap)
    (token realm : String) (options : RequestingPartyTokenOptions) :
    OpOut (Option RequestingPartyPermissionDecision) :=
  let errMessage := "could not get requesting party token"
  let (h, pMode) := StringP h "decision"
  let options := { options with ResponseMode := some pMode }
  resultOrError g env h (g.requestingPartyRequest h token realm options)
    errMessage (fun resp => resp.bodyData.asRPDecision)

/-- `CreateRealmRole` creates a role in a realm. -/
def GoKeycloak.CreateRealmRole (g : GoKeycloak) (env : Env) (h : Heap)
    (token realm : String) (role : Role) : OpOut String :=
  let errMessage := "could not create realm role"
  idOrError g env h
    (((g.GetRequestWithBearerAuth token).SetBody (.roleBody role)).Post
      (g.getAdminRealmURL realm ["roles"]))
    errMessage

/-- `GetRealmRole` returns a role from a realm by the role's name. -/
def GoKeycloak.GetRealmRole (g : GoKeycloak) (env : Env) (h : Heap)
    (token realm roleName : String) : OpOut (Option Role) :=
  let errMessage := "could not get realm role"
  resultOrError g env h
    ((g.GetRequestWithBearerAuth token).Get
      (g.getAdminRealmURL realm ["roles", roleName]))
    errMessage (fun resp => resp.bodyData.asRole)

/-- `GetRealmRoleByID` returns a role from a realm by the role's ID. -/
def GoKeycloak.GetRealmRoleByID (g : GoKeycloak) (env : Env) (h : Heap)
    (token realm roleID : String) : OpOut (Option Role) :=
  let errMessage := "could not get realm role"
  resultOrError g env h
    ((g.GetRequestWithBearerAuth token).Get
      (g.getAdminRealmURL realm ["roles-by-id", roleID]))
    errMessage (fun resp => resp.bodyData.asRole)

/-- `GetRealmRoles` gets all roles of the given realm; a query-params failure
is reported with status 500 here. -/
def GoKeycloak.GetRealmRoles (g : GoKeycloak) (env : Env) (h : Heap)
    (token realm : String) (params : GetRoleParams) : OpOut (Option (List Role)) :=
  let errMessage := "could not get realm roles"
  match GetQueryParams env (.roles params) with
  | .error e =>
    { client := g, heap := h, trace := [], status := 500, result := none,
      err := some (.wrap e errMessage) }
  | .ok queryParams =>
    resultOrError g env h
      (((g.GetRequestWithBearerAuth token).SetQueryParams queryParams).Get
        (g.getAdminRealmURL realm ["roles"]))
      errMessage (fun resp => resp.bodyData.asRoles)

/-- `GetRealmRolesByUserID` returns all roles assigned to the given user. -/
def GoKeycloak.GetRealmRolesByUserID (g : GoKeycloak) (env : Env) (h : Heap)
    (token realm userID : String) : OpOut (Option (List Role)) :=
  let errMessage := "could not get realm roles by user id"
  resultOrError g env h
    ((g.GetRequestWithBearerAuth token).Get
      (g.getAdminRealmURL realm ["users", userID, "role-mappings", "realm"]))
    errMessage (fun resp => resp.bodyData.asRoles)

/-- `GetRealmRolesByGroupID` returns all roles assigned to the given group. -/
def GoKeycloak.GetRealmRolesByGroupID (g : GoKeycloak) (env : Env) (h : Heap)
    (token realm groupID : String) : OpOut (Option (List Role)) :=
  let errMessage := "could not get realm roles by group id"
  resultOrError g env h
    ((g.GetRequestWithBearerAuth token).Get
      (g.getAdminRealmURL realm ["groups", groupID, "role-mappings", "realm"]))
    errMessage (fun resp => resp.bodyData.asRoles)

/-- `UpdateRealmRole` updates a role in a realm by the role's name. -/
def GoKeycloak.UpdateRealmRole (g : GoKeycloak) (env : Env) (h : Heap)
    (token realm roleName : String) (role : Role) : OpOut Unit :=
  let errMessage := "could not update realm role"
  statusAndCheck g env h
    (((g.GetRequestWithBearerAuth token).SetBody (.roleBody role)).Put
      (g.getAdminRealmURL realm ["roles", roleName]))
    errMessage

/-- `UpdateRealmRoleByID` updates a role in a realm by the role's ID. -/
def GoKeycloak.UpdateRealmRoleByID (g : GoKeycloak) (env : Env) (h : Heap)
    (token realm roleID : String) (role : Role) : OpOut Unit :=
  let errMessage := "could not update realm role"
  statusAndCheck g env h
    (((g.GetRequestWithBearerAuth token).SetBody (.roleBody role)).Put
      (g.getAdminRealmURL realm ["roles-by-id", roleID]))
    errMessage

/-- `DeleteRealmRole` deletes a role in a realm by the role's name. -/
def GoKeycloak.DeleteRealmRole (g : GoKeycloak) (env : Env) (h : Heap)
    (token realm roleName : String) : OpOut Unit :=
  let errMessage := "could not delete realm role"
  statusAndCheck g env h
    ((g.GetRequestWithBearerAuth token).Delete
      (g.getAdminRealmURL realm ["roles", roleName]))
    errMessage

/-- `AddRealmRoleToUser` adds realm-level role mappings to a user. -/
def GoKeycloak.AddRealmRoleToUser (g : GoKeycloak) (env : Env) (h : Heap)
    (token realm userID : String) (roles : List Role) : OpOut Unit :=
  let errMessage := "could not add realm role to user"
  statusAndCheck g env h
    (((g.GetRequestWithBearerAuth token).SetBody (.rolesBody roles)).Post
      (g.getAdminRealmURL realm ["users", userID, "role-mappings", "realm"]))
    errMessage

/-- `DeleteRealmRoleFromUser` deletes realm-level role mappings from a user. -/
def GoKeycloak.DeleteRealmRoleFromUser (g : GoKeycloak) (env : Env) (h : Heap)
    (token realm userID : String) (roles : List Role) : OpOut Unit :=
  let errMessage := "could not delete realm role from user"
  statusAndCheck g env h
    (((g.GetRequestWithBearerAuth token).SetBody (.rolesBody roles)).Delete
      (g.getAdminRealmURL realm ["users", userID, "role-mappings", "realm"]))
    errMessage

/-- `AddRealmRoleToGroup` adds realm-level role mappings to a group. -/
def GoKeycloak.AddRealmRoleToGroup (g : GoKeycloak) (env : Env) (h : Heap)
    (token realm groupID : String) (roles : List Role) : OpOut Unit :=
  let errMessage := "could not add realm role to group"
  statusAndCheck g env h
    (((g.GetRequestWithBearerAuth token).SetBody (.rolesBody roles)).Post
      (g.getAdminRealmURL realm ["groups", groupID, "role-mappings", "realm"]))
    errMessage

/-- `DeleteRealmRoleFromGroup` deletes realm-level role mappings from a group. -/
def GoKeycloak.DeleteRealmRoleFromGroup (g : GoKeycloak) (env : Env) (h : Heap)
    (token realm groupID : String) (roles : List Role) : OpOut Unit :=
  let errMessage := "could not delete realm role from group"
  statusAndCheck g env h
    (((g.GetRequestWithBearerAuth token).SetBody (.rolesBody roles)).Delete
      (g.getAdminRealmURL realm ["groups", groupID, "role-mappings", "realm"]))
    errMessage

/-- `AddRealmRoleComposite` adds a role to the composite. -/
def GoKeycloak.AddRealmRoleComposite (g : GoKeycloak) (env : Env) (h : Heap)
    (token realm roleName : String) (roles : List Role) : OpOut Unit :=
  let errMessage := "could not add realm role composite"
  statusAndCheck g env h
    (((g.GetRequestWithBearerAuth token).SetBody (.rolesBody roles)).Post
      (g.getAdminRealmURL realm ["roles", roleName, "composites"]))
    errMessage

/-- `DeleteRealmRoleComposite` deletes a role from the composite. -/
def GoKeycloak.DeleteRealmRoleComposite (g : GoKeycloak) (env : Env) (h : Heap)
    (token realm roleName : String) (roles : List Role) : OpOut Unit :=
  let errMessage := "could not delete realm role composite"
  statusAndCheck g env h
    (((g.GetRequestWithBearerAuth token).SetBody (.rolesBody roles)).Delete
      (g.getAdminRealmURL realm ["roles", roleName, "composites"]))
    errMessage

/-- `GetCompositeRealmRoles` returns the realm composite roles of a role. -/
def GoKeycloak.GetCompositeRealmRoles (g : GoKeycloak) (env : Env) (h : Heap)
    (token realm roleName : String) : OpOut (Option (List Role)) :=
  let errMessage := "could not get composite realm roles by role"
  resultOrError g env h
    ((g.GetRequestWithBearerAuth token).Get
      (g.getAdminRealmURL realm ["roles", roleName, "composites"]))
    errMessage (fun resp => resp.bodyData.asRoles)

/-- `GetCompositeRolesByRoleID` returns composite roles by role ID. -/
def GoKeycloak.GetCompositeRolesByRoleID (g : GoKeycloak) (env : Env) (h : Heap)
    (token realm roleID : String) : OpOut (Option (List Role)) :=
  let errMessage := "could not get composite client roles by role id"
  resultOrError g env h
    ((g.GetRequestWithBearerAuth token).Get
      (g.getAdminRealmURL realm ["roles-by-id", roleID, "composites"]))
    errMessage (fun resp => resp.bodyData.asRoles)

/-- `GetCompositeRealmRolesByRoleID` returns realm composite roles by role ID. -/
def GoKeycloak.GetCompositeRealmRolesByRoleID (g : GoKeycloak) (env : Env) (h : Heap)
    (token realm roleID : String) : OpOut (Option (List Role)) :=
  let errMessage := "could not get composite client roles by role id"
  resultOrError g env h
    ((g.GetRequestWithBearerAuth token).Get
      (g.getAdminRealmURL realm ["roles-by-id", roleID, "composites", "realm"]))
    errMessage (fun resp => resp.bodyData.asRoles)

/-- `GetCompositeRealmRolesByUserID` returns realm and composite roles of a user. -/
def GoKeycloak.GetCompositeRealmRolesByUserID (g : GoKeycloak) (env : Env) (h : Heap)
    (token realm userID : String) : OpOut (Option (List Role)) :=
  let errMessage := "could not get composite client roles by user id"
  resultOrError g env h
    ((g.GetRequestWithBearerAuth token).Get
      (g.getAdminRealmURL realm ["users", userID, "role-mappings", "realm", "composite"]))
    errMessage (fun resp => resp.bodyData.asRoles)

/-- `GetCompositeRealmRolesByGroupID` returns realm and composite roles of a group. -/
def GoKeycloak.GetCompositeRealmRolesByGroupID (g : GoKeycloak) (env : Env) (h : Heap)
    (token realm groupID : String) : OpOut (Option (List Role)) :=
  let errMessage := "could not get composite client roles by user id"
  resultOrError g env h
    ((g.GetRequestWithBearerAuth token).Get
      (g.getAdminRealmURL realm ["groups", groupID, "role-mappings", "realm", "composite"]))
    errMessage (fun resp => resp.bodyData.asRoles)

/-- `GetAvailableRealmRolesByUserID` returns available realm roles for a user. -/
def GoKeycloak.GetAvailableRealmRolesByUserID (g : GoKeycloak) (env : Env) (h : Heap)
    (token realm userID : String) : OpOut (Option (List Role)) :=
  let errMessage := "could not get available client roles by user id"
  resultOrError g env h
    ((g.GetRequestWithBearerAuth token).Get
      (g.getAdminRealmURL realm ["users", userID, "role-mappings", "realm", "available"]))
    errMessage (fun resp => resp.bodyData.asRoles)

/-- `GetAvailableRealmRolesByGroupID` returns available realm roles for a group. -/
def GoKeycloak.GetAvailableRealmRolesByGroupID (g : GoKeycloak) (env : Env) (h : Heap)
    (token realm groupID : String) : OpOut (Option (List Role)) :=
  let errMessage := "could not get available client roles by user id"
  resultOrError g env h
    ((g.GetRequestWithBearerAuth token).Get
      (g.getAdminRealmURL realm ["groups", groupID, "role-mappings", "realm", "available"]))
    errMessage (fun resp => resp.bodyData.asRoles)

/-- Modelled from the spec: `GetRequestingPartyToken` is not among the
sources (only its caller `EvaluatePermission` and its tests appear).  Per the
spec's catalogue of OIDC token and UMA permission-evaluation endpoints, it
posts the requesting-party options as form data — one `permission` value per
element — to the realm's openid-connect token endpoint and decodes a JWT on
success, with the same static error description as the other requesting-party
calls. -/
def GoKeycloak.GetRequestingPartyToken (g : GoKeycloak) (env : Env) (h : Heap)
    (token realm : String) (options : RequestingPartyTokenOptions) : OpOut (Option JWT) :=
  let errMessage := "could not get requesting party token"
  resultOrError g env h (g.requestingPartyRequest h token realm options)
    errMessage (fun resp => resp.bodyData.asJWT)

/-- `EvaluatePermission` builds requesting-party options whose grant type is
the fixed UMA-ticket URN (taking addresses of its locals) and delegates to
`GetRequestingPartyToken`. -/
def GoKeycloak.EvaluatePermission (g : GoKeycloak) (env : Env) (h : Heap)
    (userToken realm audience response_mode : String) (permissions : List String) :
    OpOut (Option JWT) :=
  let permission_token_grant := "urn:ietf:params:oauth:grant-type:uma-ticket"
  let (h, pGrant) := StringP h permission_token_grant
  let (h, pAudience) := StringP h audience
  let (h, pMode) := StringP h response_mode
  let (h, pPermissions) := StrsP h permissions
  let options : RequestingPartyTokenOptions :=
    { GrantType := some pGrant, Audience := some pAudience,
      ResponseMode := some pMode, Permissions := some pPermissions }
  g.GetRequestingPartyToken env h userToken realm options

/-! ## Concrete fixtures for witnesses and counterexamples -/

def gDemo : GoKeycloak :=
  { basePath := "http://keycloak.local/auth", Config := {} }

/-- An environment whose server answers every request with a bare 200 and
whose query-parameter serialization always succeeds. -/
def env200 : Env :=
  { http := fun _ => .success { statusCode := 200 },
    queryParams := fun _ => .ok [] }

/-- An environment in which every request dies on the wire. -/
def envDown : Env :=
  { http := fun _ => .transportError "connection refused",
    queryParams := fun _ => .ok [] }

end GoKeycloakModel

namespace GoKeycloakModel

/-! ## Helper lemmas about the shared call patterns -/

theorem checkForError_isSome_eq (env : Env) (req : HttpRequest) (m : String) :
    (checkForError (doRequest env req).1 (doRequest env req).2 m).isSome = httpFailed env req := by
  unfold doRequest httpFailed checkForError
  cases env.http req with
  | success r =>
    simp only
    cases h2 : is2xxB r.statusCode <;> simp [h2]
  | transportError s => simp

theorem checkForError_eq_none_iff (resp : HttpResponse) (rerr : Option GoError) (m : String) :
    checkForError resp rerr m = none ↔ rerr = none ∧ is2xxB resp.statusCode = true := by
  unfold checkForError
  cases rerr with
  | some e => simp
  | none =>
    cases h2 : is2xxB resp.statusCode <;> simp [h2]

theorem checkForError_top (resp : HttpResponse) (rerr : Option GoError) (m : String) :
    (checkForError resp rerr m).isSome = true → errTopD (checkForError resp rerr m) = m := by
  unfold checkForError
  cases rerr with
  | some e => intro _; rfl
  | none =>
    cases h2 : is2xxB resp.statusCode <;> simp [h2, errTopD, GoError.top]

theorem statusAndCheck_client (g : GoKeycloak) (env : Env) (h : Heap)
    (req : HttpRequest) (m : String) :
    (statusAndCheck g env h req m).client = g := rfl

theorem statusAndCheck_heap (g : GoKeycloak) (env : Env) (h : Heap)
    (req : HttpRequest) (m : String) :
    (statusAndCheck g env h req m).heap = h := rfl

theorem statusAndCheck_trace (g : GoKeycloak) (env : Env) (h : Heap)
    (req : HttpRequest) (m : String) :
    (statusAndCheck g env h req m).trace = [req] := rfl

theorem statusAndCheck_status (g : GoKeycloak) (env : Env) (h : Heap)
    (req : HttpRequest) (m : String) :
    (statusAndCheck g env h req m).status =
      (respOf env (theReq (statusAndCheck g env h req m))).statusCode := rfl

theorem statusAndCheck_errAny (g : GoKeycloak) (env : Env) (h : Heap)
    (req : HttpRequest) (m : String) :
    (statusAndCheck g env h req m).err.isSome =
      (statusAndCheck g env h req m).trace.any (httpFailed env) := by
  show (checkForError (doRequest env req).1 (doRequest env req).2 m).isSome = _
  rw [checkForError_isSome_eq, statusAndCheck_trace]
  simp

theorem statusAndCheck_errTop (g : GoKeycloak) (env : Env) (h : Heap)
    (req : HttpRequest) (m : String) :
    (statusAndCheck g env h req m).err.isSome = true →
      errTopD (statusAndCheck g env h req m).err = m := by
  exact checkForError_top (doRequest env req).1 (doRequest env req).2 m

theorem resultOrError_client {α : Type} (g : GoKeycloak) (env : Env) (h : Heap)
    (req : HttpRequest) (m : String) (decode : HttpResponse → α) :
    (resultOrError g env h req m decode).client = g := by
  unfold resultOrError
  split
  split <;> rfl

theorem resultOrError_heap {α : Type} (g : GoKeycloak) (env : Env) (h : Heap)
    (req : HttpRequest) (m : String) (decode : HttpResponse → α) :
    (resultOrError g env h req m decode).heap = h := by
  unfold resultOrError
  split
  split <;> rfl

theorem resultOrError_trace {α : Type} (g : GoKeycloak) (env : Env) (h : Heap)
    (req : HttpRequest) (m : String) (decode : HttpResponse → α) :
    (resultOrError g env h req m decode).trace = [req] := by
  unfold resultOrError
  split
  split <;> rfl

theorem resultOrError_status {α : Type} (g : GoKeycloak) (env : Env) (h : Heap)
    (req : HttpRequest) (m : String) (decode : HttpResponse → α) :
    (resultOrError g env h req m decode).status =
      (respOf env (theReq (resultOrError g env h req m decode))).statusCode := by
  unfold resultOrError respOf theReq
  split
  rename_i hdr
  split <;> simp [hdr]

theorem resultOrError_err {α : Type} (g : GoKeycloak) (env : Env) (h : Heap)
    (req : HttpRequest) (m : String) (decode : HttpResponse → α) :
    (resultOrError g env h req m decode).err =
      checkForError (doRequest env req).1 (doRequest env req).2 m := by
  unfold resultOrError
  split
  rename_i hdr
  split <;> (rename_i heq; simp [hdr, heq])

theorem resultOrError_errAny {α : Type} (g : GoKeycloak) (env : Env) (h : Heap)
    (req : HttpRequest) (m : String) (decode : HttpResponse → α) :
    (resultOrError g env h req m decode).err.isSome =
      (resultOrError g env h req m decode).trace.any (httpFailed env) := by
  rw [resultOrError_err, resultOrError_trace, checkForError_isSome_eq]
  simp

theorem resultOrError_errTop {α : Type} (g : GoKeycloak) (env : Env) (h : Heap)
    (req : HttpRequest) (m : String) (decode : HttpResponse → α) :
    (resultOrError g env h req m decode).err.isSome = true →
      errTopD (resultOrError g env h req m decode).err = m := by
  rw [resultOrError_err]
  exact checkForError_top (doRequest env req).1 (doRequest env req).2 m

theorem resultOrError_result {α : Type} (g : GoKeycloak) (env : Env) (h : Heap)
    (req : HttpRequest) (m : String) (decode : HttpResponse → α) :
    (resultOrError g env h req m decode).result =
      (if (resultOrError g env h req m decode).err.isSome then none
       else some (decode (respOf env (theReq (resultOrError g env h req m decode))))) := by
  unfold resultOrError respOf theReq
  split
  rename_i hdr
  split <;> (rename_i heq; simp [hdr, heq])

theorem idOrError_client (g : GoKeycloak) (env : Env) (h : Heap)
    (req : HttpRequest) (m : String) :
    (idOrError g env h req m).client = g := by
  unfold idOrError
  split
  split <;> rfl

theorem idOrError_heap (g : GoKeycloak) (env : Env) (h : Heap)
    (req : HttpRequest) (m : String) :
    (idOrError g env h req m).heap = h := by
  unfold idOrError
  split
  split <;> rfl

theorem idOrError_trace (g : GoKeycloak) (env : Env) (h : Heap)
    (req : HttpRequest) (m : String) :
    (idOrError g env h req m).trace = [req] := by
  unfold idOrError
  split
  split <;> rfl

theorem idOrError_status (g : GoKeycloak) (env : Env) (h : Heap)
    (req : HttpRequest) (m : String) :
    (idOrError g env h req m).status =
      (respOf env (theReq (idOrError g env h req m))).statusCode := by
  unfold idOrError respOf theReq
  split
  rename_i hdr
  split <;> simp [hdr]

theorem idOrError_err (g : GoKeycloak) (env : Env) (h : Heap)
    (req : HttpRequest) (m : String) :
    (idOrError g env h req m).err =
      checkForError (doRequest env req).1 (doRequest env req).2 m := by
  unfold idOrError
  split
  rename_i hdr
  split <;> (rename_i heq; simp [hdr, heq])

theorem idOrError_errAny (g : GoKeycloak) (env : Env) (h : Heap)
    (req : HttpRequest) (m : String) :
    (idOrError g env h req m).err.isSome =
      (idOrError g env h req m).trace.any (httpFailed env) := by
  rw [idOrError_err, idOrError_trace, checkForError_isSome_eq]
  simp

theorem idOrError_errTop (g : GoKeycloak) (env : Env) (h : Heap)
    (req : HttpRequest) (m : String) :
    (idOrError g env h req m).err.isSome = true →
      errTopD (idOrError g env h req m).err = m := by
  rw [idOrError_err]
  exact checkForError_top (doRequest env req).1 (doRequest env req).2 m

theorem getD_append_length (l : List HVal) (v d : HVal) :
    (l ++ [v]).getD l.length d = v := by
  induction l with
  | nil => rfl
  | cons a tl ih => simp [ih]

theorem exists_ext_of_eq {h h2 : Heap} (e : h2 = h) : ∃ ext, h2 = h ++ ext :=
  ⟨[], by simp [e]⟩

/-- `GetUserFederatedIdentities` returns the outer resty error in its success
branch, but that error is necessarily nil there, so the operation is
extensionally the standard guarded-result pattern. -/
theorem GetUserFederatedIdentities_eq (g : GoKeycloak) (env : Env) (h : Heap)
    (t r u : String) :
    g.GetUserFederatedIdentities env h t r u =
      resultOrError g env h ((g.GetRequestWithBearerAuth t).Get
          (g.getAdminRealmURL r ["users", u, "federated-identity"]))
        "could not get user federated identities" (fun resp => resp.bodyData.asFedIds) := by
  unfold GoKeycloak.GetUserFederatedIdentities resultOrError doRequest
  cases hh : env.http ((g.GetRequestWithBearerAuth t).Get
      (g.getAdminRealmURL r ["users", u, "federated-identity"])) <;> simp [hh, checkForError]

theorem idOrError_result (g : GoKeycloak) (env : Env) (h : Heap)
    (req : HttpRequest) (m : String) :
    (idOrError g env h req m).result =
      (if (idOrError g env h req m).err.isSome then ""
       else getID (respOf env (theReq (idOrError g env h req m)))) := by
  unfold idOrError respOf theReq
  split
  rename_i hdr
  split <;> (rename_i heq; simp [hdr, heq])

end GoKeycloakModel

namespace GoKeycloakModel

/-! ## Claim theorems -/

/-- C7: every public operation leaves the GoKeycloak client value itself
unchanged — no call writes to the receiver's configuration or any other field
of the client — and consequently two calls commute with respect to client
state (illustrated for a CreateUser / CreateRealmRole pair). -/
theorem client_unchanged :
    (∀ (g : GoKeycloak) (env : Env) (h : Heap) (t r : String) (user : User),
      (g.CreateUser env h t r user).client = g) ∧
    (∀ (g : GoKeycloak) (env : Env) (h : Heap) (t r u : String),
      (g.DeleteUser env h t r u).client = g) ∧
    (∀ (g : GoKeycloak) (env : Env) (h : Heap) (t r u : String),
      (g.GetUserByID env h t r u).client = g) ∧
    (∀ (g : GoKeycloak) (env : Env) (h : Heap) (t r : String) (p : GetUsersParams),
      (g.GetUserCount env h t r p).client = g) ∧
    (∀ (g : GoKeycloak) (env : Env) (h : Heap) (t r u : String) (p : GetGroupsParams),
      (g.GetUserGroups env h t r u p).client = g) ∧
    (∀ (g : GoKeycloak) (env : Env) (h : Heap) (t r : String) (p : GetUsersParams),
      (g.GetUsers env h t r p).client = g) ∧
    (∀ (g : GoKeycloak) (env : Env) (h : Heap) (t r rn : String) (p : GetUsersByRoleParams),
      (g.GetUsersByRoleName env h t r rn p).client = g) ∧
    (∀ (g : GoKeycloak) (env : Env) (h : Heap) (t r c rn : String) (p : GetUsersByRoleParams),
      (g.GetUsersByClientRoleName env h t r c rn p).client = g) ∧
    (∀ (g : GoKeycloak) (env : Env) (h : Heap) (t u r pw : String) (tmp : Bool),
      (g.SetPassword env h t u r pw tmp).client = g) ∧
    (∀ (g : GoKeycloak) (env : Env) (h : Heap) (t r : String) (user : User),
      (g.UpdateUser env h t r user).client = g) ∧
    (∀ (g : GoKeycloak) (env : Env) (h : Heap) (t r u gid : String),
      (g.AddUserToGroup env h t r u gid).client = g) ∧
    (∀ (g : GoKeycloak) (env : Env) (h : Heap) (t r u gid : String),
      (g.DeleteUserFromGroup env h t r u gid).client = g) ∧
    (∀ (g : GoKeycloak) (env : Env) (h : Heap) (t r u : String),
      (g.GetUserSessions env h t r u).client = g) ∧
    (∀ (g : GoKeycloak) (env : Env) (h : Heap) (t r u c : String),
      (g.GetUserOfflineSessionsForClient env h t r u c).client = g) ∧
    (∀ (g : GoKeycloak) (env : Env) (h : Heap) (t r c u : String) (roles : List Role),
      (g.AddClientRolesToUser env h t r c u roles).client = g) ∧
    (∀ (g : GoKeycloak) (env : Env) (h : Heap) (t r c u : String) (roles : List Role),
      (g.AddClientRoleToUser env h t r c u roles).client = g) ∧
    (∀ (g : GoKeycloak) (env : Env) (h : Heap) (t r c u : String) (roles : List Role),
      (g.DeleteClientRolesFromUser env h t r c u roles).client = g) ∧
    (∀ (g : GoKeycloak) (env : Env) (h : Heap) (t r c u : String) (roles : List Role),
      (g.DeleteClientRoleFromUser env h t r c u roles).client = g) ∧
    (∀ (g : GoKeycloak) (env : Env) (h : Heap) (t r u : String),
      (g.GetUserFederatedIdentities env h t r u).client = g) ∧
    (∀ (g : GoKeycloak) (env : Env) (h : Heap) (t r u pid : String) (f : FederatedIdentityRepresentation),
      (g.CreateUserFederatedIdentity env h t r u pid f).client = g) ∧
    (∀ (g : GoKeycloak) (env : Env) (h : Heap) (t r u pid : String),
      (g.DeleteUserFederatedIdentity env h t r u pid).client = g) ∧
    (∀ (g : GoKeycloak) (env : Env) (h : Heap) (t r : String) (o : RequestingPartyTokenOptions),
      (g.GetRequestingPartyPermissions env h t r o).client = g) ∧
    (∀ (g : GoKeycloak) (env : Env) (h : Heap) (t r : String) (o : RequestingPartyTokenOptions),
      (g.GetRequestingPartyPermissionDecision env h t r o).client = g) ∧
    (∀ (g : GoKeycloak) (env : Env) (h : Heap) (t r : String) (role : Role),
      (g.CreateRealmRole env h t r role).client = g) ∧
    (∀ (g : GoKeycloak) (env : Env) (h : Heap) (t r rn : String),
      (g.GetRealmRole env h t r rn).client = g) ∧
    (∀ (g : GoKeycloak) (env : Env) (h : Heap) (t r rid : String),
      (g.GetRealmRoleByID env h t r rid).client = g) ∧
    (∀ (g : GoKeycloak) (env : Env) (h : Heap) (t r : String) (p : GetRoleParams),
      (g.GetRealmRoles env h t r p).client = g) ∧
    (∀ (g : GoKeycloak) (env : Env) (h : Heap) (t r u : String),
      (g.GetRealmRolesByUserID env h t r u).client = g) ∧
    (∀ (g : GoKeycloak) (env : Env) (h : Heap) (t r gid : String),
      (g.GetRealmRolesByGroupID env h t r gid).client = g) ∧
    (∀ (g : GoKeycloak) (env : Env) (h : Heap) (t r rn : String) (role : Role),
      (g.UpdateRealmRole env h t r rn role).client = g) ∧
    (∀ (g : GoKeycloak) (env : Env) (h : Heap) (t r rid : String) (role : Role),
      (g.UpdateRealmRoleByID env h t r rid role).client = g) ∧
    (∀ (g : GoKeycloak) (env : Env) (h : Heap) (t r rn : String),
      (g.DeleteRealmRole env h t r rn).client = g) ∧
    (∀ (g : GoKeycloak) (env : Env) (h : Heap) (t r u : String) (roles : List Role),
      (g.AddRealmRoleToUser env h t r u roles).client = g) ∧
    (∀ (g : GoKeycloak) (env : Env) (h : Heap) (t r u : String) (roles : List Role),
      (g.DeleteRealmRoleFromUser env h t r u roles).client = g) ∧
    (∀ (g : GoKeycloak) (env : Env) (h : Heap) (t r gid : String) (roles : List Role),
      (g.AddRealmRoleToGroup env h t r gid roles).client = g) ∧
    (∀ (g : GoKeycloak) (env : Env) (h : Heap) (t r gid : String) (roles : List Role),
      (g.DeleteRealmRoleFromGroup env h t r gid roles).client = g) ∧
    (∀ (g : GoKeycloak) (env : Env) (h : Heap) (t r rn : String) (roles : List Role),
      (g.AddRealmRoleComposite env h t r rn roles).client = g) ∧
    (∀ (g : GoKeycloak) (env : Env) (h : Heap) (t r rn : String) (roles : List Role),
      (g.DeleteRealmRoleComposite env h t r rn roles).client = g) ∧
    (∀ (g : GoKeycloak) (env : Env) (h : Heap) (t r rn : String),
      (g.GetCompositeRealmRoles env h t r rn).client = g) ∧
    (∀ (g : GoKeycloak) (env : Env) (h : Heap) (t r rid : String),
      (g.GetCompositeRolesByRoleID env h t r rid).client = g) ∧
    (∀ (g : GoKeycloak) (env : Env) (h : Heap) (t r rid : String),
      (g.GetCompositeRealmRolesByRoleID env h t r rid).client = g) ∧
    (∀ (g : GoKeycloak) (env : Env) (h : Heap) (t r u : String),
      (g.GetCompositeRealmRolesByUserID env h t r u).client = g) ∧
    (∀ (g : GoKeycloak) (env : Env) (h : Heap) (t r gid : String),
      (g.GetCompositeRealmRolesByGroupID env h t r gid).client = g) ∧
    (∀ (g : GoKeycloak) (env : Env) (h : Heap) (t r u : String),
      (g.GetAvailableRealmRolesByUserID env h t r u).client = g) ∧
    (∀ (g : GoKeycloak) (env : Env) (h : Heap) (t r gid : String),
      (g.GetAvailableRealmRolesByGroupID env h t r gid).client = g) ∧
    (∀ (g : GoKeycloak) (env : Env) (h : Heap) (t r : String) (o : RequestingPartyTokenOptions),
      (g.GetRequestingPartyToken env h t r o).client = g) ∧
    (∀ (g : GoKeycloak) (env : Env) (h : Heap) (ut r aud rm : String) (ps : List String),
      (g.EvaluatePermission env h ut r aud rm ps).client = g) ∧
    (∀ (g : GoKeycloak) (env : Env) (h : Heap) (t r : String) (user : User) (role : Role),
      (GoKeycloak.CreateRealmRole (g.CreateUser env h t r user).client env h t r role).client =
        (GoKeycloak.CreateUser (g.CreateRealmRole env h t r role).client env h t r user).client) :=
  ⟨fun g env h t r user => idOrError_client g env _ _ _,
   fun g env h t r u => statusAndCheck_client g env _ _ _,
   by
    intro g env h t r u
    unfold GoKeycloak.GetUserByID
    by_cases hu : u = "" <;> simp [hu, resultOrError_client],
   by
    intro g env h t r p
    unfold GoKeycloak.GetUserCount GetQueryParams
    cases hq : env.queryParams (.users p) with
    | error e => simp [hq]
    | ok qp => simp only [hq]; split <;> rfl,
   by
    intro g env h t r u p
    unfold GoKeycloak.GetUserGroups GetQueryParams
    cases hq : env.queryParams (.groups p) with
    | error e => simp [hq]
    | ok qp => simp [hq, resultOrError_client],
   by
    intro g env h t r p
    unfold GoKeycloak.GetUsers GetQueryParams
    cases hq : env.queryParams (.users p) with
    | error e => simp [hq]
    | ok qp => simp [hq, resultOrError_client],
   by
    intro g env h t r rn p
    unfold GoKeycloak.GetUsersByRoleName GetQueryParams
    cases hq : env.queryParams (.usersByRole p) with
    | error e => simp [hq]
    | ok qp => simp [hq, resultOrError_client],
   by
    intro g env h t r c rn p
    unfold GoKeycloak.GetUsersByClientRoleName GetQueryParams
    cases hq : env.queryParams (.usersByRole p) with
    | error e => simp [hq]
    | ok qp => simp [hq, resultOrError_client],
   fun g env h t u r pw tmp => statusAndCheck_client g env _ _ _,
   fun g env h t r user => statusAndCheck_client g env _ _ _,
   fun g env h t r u gid => statusAndCheck_client g env _ _ _,
   fun g env h t r u gid => statusAndCheck_client g env _ _ _,
   fun g env h t r u => resultOrError_client g env _ _ _ _,
   fun g env h t r u c => resultOrError_client g env _ _ _ _,
   fun g env h t r c u roles => statusAndCheck_client g env _ _ _,
   fun g env h t r c u roles => statusAndCheck_client g env _ _ _,
   fun g env h t r c u roles => statusAndCheck_client g env _ _ _,
   fun g env h t r c u roles => statusAndCheck_client g env _ _ _,
   by
    intro g env h t r u
    rw [GetUserFederatedIdentities_eq]
    exact resultOrError_client g env _ _ _ _,
   fun g env h t r u pid f => statusAndCheck_client g env _ _ _,
   fun g env h t r u pid => statusAndCheck_client g env _ _ _,
   fun g env h t r o => resultOrError_client g env _ _ _ _,
   fun g env h t r o => resultOrError_client g env _ _ _ _,
   fun g env h t r role => idOrError_client g env _ _ _,
   fun g env h t r rn => resultOrError_client g env _ _ _ _,
   fun g env h t r rid => resultOrError_client g env _ _ _ _,
   by
    intro g env h t r p
    unfold GoKeycloak.GetRealmRoles GetQueryParams
    cases hq : env.queryParams (.roles p) with
    | error e => simp [hq]
    | ok qp => simp [hq, resultOrError_client],
   fun g env h t r u => resultOrError_client g env _ _ _ _,
   fun g env h t r gid => resultOrError_client g env _ _ _ _,
   fun g env h t r rn role => statusAndCheck_client g env _ _ _,
   fun g env h t r rid role => statusAndCheck_client g env _ _ _,
   fun g env h t r rn => statusAndCheck_client g env _ _ _,
   fun g env h t r u roles => statusAndCheck_client g env _ _ _,
   fun g env h t r u roles => statusAndCheck_client g env _ _ _,
   fun g env h t r gid roles => statusAndCheck_client g env _ _ _,
   fun g env h t r gid roles => statusAndCheck_client g env _ _ _,
   fun g env h t r rn roles => statusAndCheck_client g env _ _ _,
   fun g env h t r rn roles => statusAndCheck_client g env _ _ _,
   fun g env h t r rn => resultOrError_client g env _ _ _ _,
   fun g env h t r rid => resultOrError_client g env _ _ _ _,
   fun g env h t r rid => resultOrError_client g env _ _ _ _,
   fun g env h t r u => resultOrError_client g env _ _ _ _,
   fun g env h t r gid => resultOrError_client g env _ _ _ _,
   fun g env h t r u => resultOrError_client g env _ _ _ _,
   fun g env h t r gid => resultOrError_client g env _ _ _ _,
   fun g env h t r o => resultOrError_client g env _ _ _ _,
   fun g env h ut r aud rm ps => resultOrError_client g env _ _ _ _,
   by
    intro g env h t r user role
    unfold GoKeycloak.CreateUser GoKeycloak.CreateRealmRole
    simp [idOrError_client]⟩

end GoKeycloakModel

namespace GoKeycloakModel

/-- C1 (amended): for every public operation the returned error is non-nil
exactly when the issued HTTP call failed (transport failure or non-2xx
status), or query-parameter serialization failed for the operations taking a
params struct, or — the amendment — the userID argument of GetUserByID was
empty; and on a successful call the operation returns a nil error together
with the response body decoded into its result type (the created resource's
ID for the create calls). -/
theorem err_nonNil_iff_call_failed :
    (∀ (g : GoKeycloak) (env : Env) (h : Heap) (t r : String) (user : User),
      (g.CreateUser env h t r user).err.isSome = (g.CreateUser env h t r user).trace.any (httpFailed env)) ∧
    (∀ (g : GoKeycloak) (env : Env) (h : Heap) (t r : String) (user : User),
      (g.CreateUser env h t r user).result =
        (if (g.CreateUser env h t r user).err.isSome then ""
         else getID (respOf env (theReq (g.CreateUser env h t r user))))) ∧
    (∀ (g : GoKeycloak) (env : Env) (h : Heap) (t r u : String),
      (g.DeleteUser env h t r u).err.isSome = (g.DeleteUser env h t r u).trace.any (httpFailed env)) ∧
    (∀ (g : GoKeycloak) (env : Env) (h : Heap) (t r u : String),
      (g.GetUserByID env h t r u).err.isSome = ((u == "") || (g.GetUserByID env h t r u).trace.any (httpFailed env))) ∧
    (∀ (g : GoKeycloak) (env : Env) (h : Heap) (t r u : String),
      (g.GetUserByID env h t r u).result =
        (if (g.GetUserByID env h t r u).err.isSome then none
         else some ((respOf env (theReq (g.GetUserByID env h t r u))).bodyData.asUser))) ∧
    (∀ (g : GoKeycloak) (env : Env) (h : Heap) (t r : String) (p : GetUsersParams),
      (g.GetUserCount env h t r p).err.isSome = (serFailed env (.users p) || (g.GetUserCount env h t r p).trace.any (httpFailed env))) ∧
    (∀ (g : GoKeycloak) (env : Env) (h : Heap) (t r : String) (p : GetUsersParams),
      (g.GetUserCount env h t r p).result =
        (if serFailed env (.users p) then 0
         else if (g.GetUserCount env h t r p).err.isSome then -1
         else (respOf env (theReq (g.GetUserCount env h t r p))).bodyData.asCount)) ∧
    (∀ (g : GoKeycloak) (env : Env) (h : Heap) (t r u : String) (p : GetGroupsParams),
      (g.GetUserGroups env h t r u p).err.isSome = (serFailed env (.groups p) || (g.GetUserGroups env h t r u p).trace.any (httpFailed env))) ∧
    (∀ (g : GoKeycloak) (env : Env) (h : Heap) (t r u : String) (p : GetGroupsParams),
      (g.GetUserGroups env h t r u p).result =
        (if (g.GetUserGroups env h t r u p).err.isSome then none
         else some ((respOf env (theReq (g.GetUserGroups env h t r u p))).bodyData.asGroups))) ∧
    (∀ (g : GoKeycloak) (env : Env) (h : Heap) (t r : String) (p : GetUsersParams),
      (g.GetUsers env h t r p).err.isSome = (serFailed env (.users p) || (g.GetUsers env h t r p).trace.any (httpFailed env))) ∧
    (∀ (g : GoKeycloak) (env : Env) (h : Heap) (t r : String) (p : GetUsersParams),
      (g.GetUsers env h t r p).result =
        (if (g.GetUsers env h t r p).err.isSome then none
         else some ((respOf env (theReq (g.GetUsers env h t r p))).bodyData.asUsers))) ∧
    (∀ (g : GoKeycloak) (env : Env) (h : Heap) (t r rn : String) (p : GetUsersByRoleParams),
      (g.GetUsersByRoleName env h t r rn p).err.isSome = (serFailed env (.usersByRole p) || (g.GetUsersByRoleName env h t r rn p).trace.any (httpFailed env))) ∧
    (∀ (g : GoKeycloak) (env : Env) (h : Heap) (t r rn : String) (p : GetUsersByRoleParams),
      (g.GetUsersByRoleName env h t r rn p).result =
        (if (g.GetUsersByRoleName env h t r rn p).err.isSome then none
         else some ((respOf env (theReq (g.GetUsersByRoleName env h t r rn p))).bodyData.asUsers))) ∧
    (∀ (g : GoKeycloak) (env : Env) (h : Heap) (t r c rn : String) (p : GetUsersByRoleParams),
      (g.GetUsersByClientRoleName env h t r c rn p).err.isSome = (serFailed env (.usersByRole p) || (g.GetUsersByClientRoleName env h t r c rn p).trace.any (httpFailed env))) ∧
    (∀ (g : GoKeycloak) (env : Env) (h : Heap) (t r c rn : String) (p : GetUsersByRoleParams),
      (g.GetUsersByClientRoleName env h t r c rn p).result =
        (if (g.GetUsersByClientRoleName env h t r c rn p).err.isSome then none
         else some ((respOf env (theReq (g.GetUsersByClientRoleName env h t r c rn p))).bodyData.asUsers))) ∧
    (∀ (g : GoKeycloak) (env : Env) (h : Heap) (t u r pw : String) (tmp : Bool),
      (g.SetPassword env h t u r pw tmp).err.isSome = (g.SetPassword env h t u r pw tmp).trace.any (httpFailed env)) ∧
    (∀ (g : GoKeycloak) (env : Env) (h : Heap) (t r : String) (user : User),
      (g.UpdateUser env h t r user).err.isSome = (g.UpdateUser env h t r user).trace.any (httpFailed env)) ∧
    (∀ (g : GoKeycloak) (env : Env) (h : Heap) (t r u gid : String),
      (g.AddUserToGroup env h t r u gid).err.isSome = (g.AddUserToGroup env h t r u gid).trace.any (httpFailed env)) ∧
    (∀ (g : GoKeycloak) (env : Env) (h : Heap) (t r u gid : String),
      (g.DeleteUserFromGroup env h t r u gid).err.isSome = (g.DeleteUserFromGroup env h t r u gid).trace.any (httpFailed env)) ∧
    (∀ (g : GoKeycloak) (env : Env) (h : Heap) (t r u : String),
      (g.GetUserSessions env h t r u).err.isSome = (g.GetUserSessions env h t r u).trace.any (httpFailed env)) ∧
    (∀ (g : GoKeycloak) (env : Env) (h : Heap) (t r u : String),
      (g.GetUserSessions env h t r u).result =
        (if (g.GetUserSessions env h t r u).err.isSome then none
         else some ((respOf env (theReq (g.GetUserSessions env h t r u))).bodyData.asSessions))) ∧
    (∀ (g : GoKeycloak) (env : Env) (h : Heap) (t r u c : String),
      (g.GetUserOfflineSessionsForClient env h t r u c).err.isSome = (g.GetUserOfflineSessionsForClient env h t r u c).trace.any (httpFailed env)) ∧
    (∀ (g : GoKeycloak) (env : Env) (h : Heap) (t r u c : String),
      (g.GetUserOfflineSessionsForClient env h t r u c).result =
        (if (g.GetUserOfflineSessionsForClient env h t r u c).err.isSome then none
         else some ((respOf env (theReq (g.GetUserOfflineSessionsForClient env h t r u c))).bodyData.asSessions))) ∧
    (∀ (g : GoKeycloak) (env : Env) (h : Heap) (t r c u : String) (roles : List Role),
      (g.AddClientRolesToUser env h t r c u roles).err.isSome = (g.AddClientRolesToUser env h t r c u roles).trace.any (httpFailed env)) ∧
    (∀ (g : GoKeycloak) (env : Env) (h : Heap) (t r c u : String) (roles : List Role),
      (g.AddClientRoleToUser env h t r c u roles).err.isSome = (g.AddClientRoleToUser env h t r c u roles).trace.any (httpFailed env)) ∧
    (∀ (g : GoKeycloak) (env : Env) (h : Heap) (t r c u : String) (roles : List Role),
      (g.DeleteClientRolesFromUser env h t r c u roles).err.isSome = (g.DeleteClientRolesFromUser env h t r c u roles).trace.any (httpFailed env)) ∧
    (∀ (g : GoKeycloak) (env : Env) (h : Heap) (t r c u : String) (roles : List Role),
      (g.DeleteClientRoleFromUser env h t r c u roles).err.isSome = (g.DeleteClientRoleFromUser env h t r c u roles).trace.any (httpFailed env)) ∧
    (∀ (g : GoKeycloak) (env : Env) (h : Heap) (t r u : String),
      (g.GetUserFederatedIdentities env h t r u).err.isSome = (g.GetUserFederatedIdentities env h t r u).trace.any (httpFailed env)) ∧
    (∀ (g : GoKeycloak) (env : Env) (h : Heap) (t r u : String),
      (g.GetUserFederatedIdentities env h t r u).result =
        (if (g.GetUserFederatedIdentities env h t r u).err.isSome then none
         else some ((respOf env (theReq (g.GetUserFederatedIdentities env h t r u))).bodyData.asFedIds))) ∧
    (∀ (g : GoKeycloak) (env : Env) (h : Heap) (t r u pid : String) (f : FederatedIdentityRepresentation),
      (g.CreateUserFederatedIdentity env h t r u pid f).err.isSome = (g.CreateUserFederatedIdentity env h t r u pid f).trace.any (httpFailed env)) ∧
    (∀ (g : GoKeycloak) (env : Env) (h : Heap) (t r u pid : String),
      (g.DeleteUserFederatedIdentity env h t r u pid).err.isSome = (g.DeleteUserFederatedIdentity env h t r u pid).trace.any (httpFailed env)) ∧
    (∀ (g : GoKeycloak) (env : Env) (h : Heap) (t r : String) (o : RequestingPartyTokenOptions),
      (g.GetRequestingPartyPermissions env h t r o).err.isSome = (g.GetRequestingPartyPermissions env h t r o).trace.any (httpFailed env)) ∧
    (∀ (g : GoKeycloak) (env : Env) (h : Heap) (t r : String) (o : RequestingPartyTokenOptions),
      (g.GetRequestingPartyPermissions env h t r o).result =
        (if (g.GetRequestingPartyPermissions env h t r o).err.isSome then none
         else some ((respOf env (theReq (g.GetRequestingPartyPermissions env h t r o))).bodyData.asRPPermissions))) ∧
    (∀ (g : GoKeycloak) (env : Env) (h : Heap) (t r : String) (o : RequestingPartyTokenOptions),
      (g.GetRequestingPartyPermissionDecision env h t r o).err.isSome = (g.GetRequestingPartyPermissionDecision env h t r o).trace.any (httpFailed env)) ∧
    (∀ (g : GoKeycloak) (env : Env) (h : Heap) (t r : String) (o : RequestingPartyTokenOptions),
      (g.GetRequestingPartyPermissionDecision env h t r o).result =
        (if (g.GetRequestingPartyPermissionDecision env h t r o).err.isSome then none
         else some ((respOf env (theReq (g.GetRequestingPartyPermissionDecision env h t r o))).bodyData.asRPDecision))) ∧
    (∀ (g : GoKeycloak) (env : Env) (h : Heap) (t r : String) (role : Role),
      (g.CreateRealmRole env h t r role).err.isSome = (g.CreateRealmRole env h t r role).trace.any (httpFailed env)) ∧
    (∀ (g : GoKeycloak) (env : Env) (h : Heap) (t r : String) (role : Role),
      (g.CreateRealmRole env h t r role).result =
        (if (g.CreateRealmRole env h t r role).err.isSome then ""
         else getID (respOf env (theReq (g.CreateRealmRole env h t r role))))) ∧
    (∀ (g : GoKeycloak) (env : Env) (h : Heap) (t r rn : String),
      (g.GetRealmRole env h t r rn).err.isSome = (g.GetRealmRole env h t r rn).trace.any (httpFailed env)) ∧
    (∀ (g : GoKeycloak) (env : Env) (h : Heap) (t r rn : String),
      (g.GetRealmRole env h t r rn).result =
        (if (g.GetRealmRole env h t r rn).err.isSome then none
         else some ((respOf env (theReq (g.GetRealmRole env h t r rn))).bodyData.asRole))) ∧
    (∀ (g : GoKeycloak) (env : Env) (h : Heap) (t r rid : String),
      (g.GetRealmRoleByID env h t r rid).err.isSome = (g.GetRealmRoleByID env h t r rid).trace.any (httpFailed env)) ∧
    (∀ (g : GoKeycloak) (env : Env) (h : Heap) (t r rid : String),
      (g.GetRealmRoleByID env h t r rid).result =
        (if (g.GetRealmRoleByID env h t r rid).err.isSome then none
         else some ((respOf env (theReq (g.GetRealmRoleByID env h t r rid))).bodyData.asRole))) ∧
    (∀ (g : GoKeycloak) (env : Env) (h : Heap) (t r : String) (p : GetRoleParams),
      (g.GetRealmRoles env h t r p).err.isSome = (serFailed env (.roles p) || (g.GetRealmRoles env h t r p).trace.any (httpFailed env))) ∧
    (∀ (g : GoKeycloak) (env : Env) (h : Heap) (t r : String) (p : GetRoleParams),
      (g.GetRealmRoles env h t r p).result =
        (if (g.GetRealmRoles env h t r p).err.isSome then none
         else some ((respOf env (theReq (g.GetRealmRoles env h t r p))).bodyData.asRoles))) ∧
    (∀ (g : GoKeycloak) (env : Env) (h : Heap) (t r u : String),
      (g.GetRealmRolesByUserID env h t r u).err.isSome = (g.GetRealmRolesByUserID env h t r u).trace.any (httpFailed env)) ∧
    (∀ (g : GoKeycloak) (env : Env) (h : Heap) (t r u : String),
      (g.GetRealmRolesByUserID env h t r u).result =
        (if (g.GetRealmRolesByUserID env h t r u).err.isSome then none
         else some ((respOf env (theReq (g.GetRealmRolesByUserID env h t r u))).bodyData.asRoles))) ∧
    (∀ (g : GoKeycloak) (env : Env) (h : Heap) (t r gid : String),
      (g.GetRealmRolesByGroupID env h t r gid).err.isSome = (g.GetRealmRolesByGroupID env h t r gid).trace.any (httpFailed env)) ∧
    (∀ (g : GoKeycloak) (env : Env) (h : Heap) (t r gid : String),
      (g.GetRealmRolesByGroupID env h t r gid).result =
        (if (g.GetRealmRolesByGroupID env h t r gid).err.isSome then none
         else some ((respOf env (theReq (g.GetRealmRolesByGroupID env h t r gid))).bodyData.asRoles))) ∧
    (∀ (g : GoKeycloak) (env : Env) (h : Heap) (t r rn : String) (role : Role),
      (g.UpdateRealmRole env h t r rn role).err.isSome = (g.UpdateRealmRole env h t r rn role).trace.any (httpFailed env)) ∧
    (∀ (g : GoKeycloak) (env : Env) (h : Heap) (t r rid : String) (role : Role),
      (g.UpdateRealmRoleByID env h t r rid role).err.isSome = (g.UpdateRealmRoleByID env h t r rid role).trace.any (httpFailed env)) ∧
    (∀ (g : GoKeycloak) (env : Env) (h : Heap) (t r rn : String),
      (g.DeleteRealmRole env h t r rn).err.isSome = (g.DeleteRealmRole env h t r rn).trace.any (httpFailed env)) ∧
    (∀ (g : GoKeycloak) (env : Env) (h : Heap) (t r u : String) (roles : List Role),
      (g.AddRealmRoleToUser env h t r u roles).err.isSome = (g.AddRealmRoleToUser env h t r u roles).trace.any (httpFailed env)) ∧
    (∀ (g : GoKeycloak) (env : Env) (h : Heap) (t r u : String) (roles : List Role),
      (g.DeleteRealmRoleFromUser env h t r u roles).err.isSome = (g.DeleteRealmRoleFromUser env h t r u roles).trace.any (httpFailed env)) ∧
    (∀ (g : GoKeycloak) (env : Env) (h : Heap) (t r gid : String) (roles : List Role),
      (g.AddRealmRoleToGroup env h t r gid roles).err.isSome = (g.AddRealmRoleToGroup env h t r gid roles).trace.any (httpFailed env)) ∧
    (∀ (g : GoKeycloak) (env : Env) (h : Heap) (t r gid : String) (roles : List Role),
      (g.DeleteRealmRoleFromGroup env h t r gid roles).err.isSome = (g.DeleteRealmRoleFromGroup env h t r gid roles).trace.any (httpFailed env)) ∧
    (∀ (g : GoKeycloak) (env : Env) (h : Heap) (t r rn : String) (roles : List Role),
      (g.AddRealmRoleComposite env h t r rn roles).err.isSome = (g.AddRealmRoleComposite env h t r rn roles).trace.any (httpFailed env)) ∧
    (∀ (g : GoKeycloak) (env : Env) (h : Heap) (t r rn : String) (roles : List Role),
      (g.DeleteRealmRoleComposite env h t r rn roles).err.isSome = (g.DeleteRealmRoleComposite env h t r rn roles).trace.any (httpFailed env)) ∧
    (∀ (g : GoKeycloak) (env : Env) (h : Heap) (t r rn : String),
      (g.GetCompositeRealmRoles env h t r rn).err.isSome = (g.GetCompositeRealmRoles env h t r rn).trace.any (httpFailed env)) ∧
    (∀ (g : GoKeycloak) (env : Env) (h : Heap) (t r rn : String),
      (g.GetCompositeRealmRoles env h t r rn).result =
        (if (g.GetCompositeRealmRoles env h t r rn).err.isSome then none
         else some ((respOf env (theReq (g.GetCompositeRealmRoles env h t r rn))).bodyData.asRoles))) ∧
    (∀ (g : GoKeycloak) (env : Env) (h : Heap) (t r rid : String),
      (g.GetCompositeRolesByRoleID env h t r rid).err.isSome = (g.GetCompositeRolesByRoleID env h t r rid).trace.any (httpFailed env)) ∧
    (∀ (g : GoKeycloak) (env : Env) (h : Heap) (t r rid : String),
      (g.GetCompositeRolesByRoleID env h t r rid).result =
        (if (g.GetCompositeRolesByRoleID env h t r rid).err.isSome then none
         else some ((respOf env (theReq (g.GetCompositeRolesByRoleID env h t r rid))).bodyData.asRoles))) ∧
    (∀ (g : GoKeycloak) (env : Env) (h : Heap) (t r rid : String),
      (g.GetCompositeRealmRolesByRoleID env h t r rid).err.isSome = (g.GetCompositeRealmRolesByRoleID env h t r rid).trace.any (httpFailed env)) ∧
    (∀ (g : GoKeycloak) (env : Env) (h : Heap) (t r rid : String),
      (g.GetCompositeRealmRolesByRoleID env h t r rid).result =
        (if (g.GetCompositeRealmRolesByRoleID env h t r rid).err.isSome then none
         else some ((respOf env (theReq (g.GetCompositeRealmRolesByRoleID env h t r rid))).bodyData.asRoles))) ∧
    (∀ (g : GoKeycloak) (env : Env) (h : Heap) (t r u : String),
      (g.GetCompositeRealmRolesByUserID env h t r u).err.isSome = (g.GetCompositeRealmRolesByUserID env h t r u).trace.any (httpFailed env)) ∧
    (∀ (g : GoKeycloak) (env : Env) (h : Heap) (t r u : String),
      (g.GetCompositeRealmRolesByUserID env h t r u).result =
        (if (g.GetCompositeRealmRolesByUserID env h t r u).err.isSome then none
         else some ((respOf env (theReq (g.GetCompositeRealmRolesByUserID env h t r u))).bodyData.asRoles))) ∧
    (∀ (g : GoKeycloak) (env : Env) (h : Heap) (t r gid : String),
      (g.GetCompositeRealmRolesByGroupID env h t r gid).err.isSome = (g.GetCompositeRealmRolesByGroupID env h t r gid).trace.any (httpFailed env)) ∧
    (∀ (g : GoKeycloak) (env : Env) (h : Heap) (t r gid : String),
      (g.GetCompositeRealmRolesByGroupID env h t r gid).result =
        (if (g.GetCompositeRealmRolesByGroupID env h t r gid).err.isSome then none
         else some ((respOf env (theReq (g.GetCompositeRealmRolesByGroupID env h t r gid))).bodyData.asRoles))) ∧
    (∀ (g : GoKeycloak) (env : Env) (h : Heap) (t r u : String),
      (g.GetAvailableRealmRolesByUserID env h t r u).err.isSome = (g.GetAvailableRealmRolesByUserID env h t r u).trace.any (httpFailed env)) ∧
    (∀ (g : GoKeycloak) (env : Env) (h : Heap) (t r u : String),
      (g.GetAvailableRealmRolesByUserID env h t r u).result =
        (if (g.GetAvailableRealmRolesByUserID env h t r u).err.isSome then none
         else some ((respOf env (theReq (g.GetAvailableRealmRolesByUserID env h t r u))).bodyData.asRoles))) ∧
    (∀ (g : GoKeycloak) (env : Env) (h : Heap) (t r gid : String),
      (g.GetAvailableRealmRolesByGroupID env h t r gid).err.isSome = (g.GetAvailableRealmRolesByGroupID env h t r gid).trace.any (httpFailed env)) ∧
    (∀ (g : GoKeycloak) (env : Env) (h : Heap) (t r gid : String),
      (g.GetAvailableRealmRolesByGroupID env h t r gid).result =
        (if (g.GetAvailableRealmRolesByGroupID env h t r gid).err.isSome then none
         else some ((respOf env (theReq (g.GetAvailableRealmRolesByGroupID env h t r gid))).bodyData.asRoles))) ∧
    (∀ (g : GoKeycloak) (env : Env) (h : Heap) (t r : String) (o : RequestingPartyTokenOptions),
      (g.GetRequestingPartyToken env h t r o).err.isSome = (g.GetRequestingPartyToken env h t r o).trace.any (httpFailed env)) ∧
    (∀ (g : GoKeycloak) (env : Env) (h : Heap) (t r : String) (o : RequestingPartyTokenOptions),
      (g.GetRequestingPartyToken env h t r o).result =
        (if (g.GetRequestingPartyToken env h t r o).err.isSome then none
         else some ((respOf env (theReq (g.GetRequestingPartyToken env h t r o))).bodyData.asJWT))) ∧
    (∀ (g : GoKeycloak) (env : Env) (h : Heap) (ut r aud rm : String) (ps : List String),
      (g.EvaluatePermission env h ut r aud rm ps).err.isSome = (g.EvaluatePermission env h ut r aud rm ps).trace.any (httpFailed env)) ∧
    (∀ (g : GoKeycloak) (env : Env) (h : Heap) (ut r aud rm : String) (ps : List String),
      (g.EvaluatePermission env h ut r aud rm ps).result =
        (if (g.EvaluatePermission env h ut r aud rm ps).err.isSome then none
         else some ((respOf env (theReq (g.EvaluatePermission env h ut r aud rm ps))).bodyData.asJWT))) :=
  ⟨fun g env h t r user => idOrError_errAny g env _ _ _,
   fun g env h t r user => idOrError_result g env _ _ _,
   fun g env h t r u => statusAndCheck_errAny g env _ _ _,
   by
    intro g env h t r u
    unfold GoKeycloak.GetUserByID
    by_cases hu : u = "" <;> simp [hu, resultOrError_errAny],
   by
    intro g env h t r u
    unfold GoKeycloak.GetUserByID
    by_cases hu : u = "" <;> simp [hu, resultOrError_result],
   by
    intro g env h t r p
    unfold GoKeycloak.GetUserCount GetQueryParams serFailed
    cases hq : env.queryParams (.users p) with
    | error e => simp [hq]
    | ok qp =>
      have hfe := checkForError_isSome_eq env
        (((g.GetRequestWithBearerAuth t).SetQueryParams qp).Get
          (g.getAdminRealmURL r ["users", "count"])) "could not get user count"
      simp only [hq]
      split <;> rename_i heq <;> rw [heq] at hfe <;> simp [← hfe],
   by
    intro g env h t r p
    unfold GoKeycloak.GetUserCount GetQueryParams serFailed
    cases hq : env.queryParams (.users p) with
    | error e => simp [hq]
    | ok qp =>
      simp only [hq]
      split <;> simp [theReq, respOf],
   by
    intro g env h t r u p
    unfold GoKeycloak.GetUserGroups GetQueryParams serFailed
    cases hq : env.queryParams (.groups p) with
    | error e => simp [hq]
    | ok qp => simp [hq, resultOrError_errAny],
   by
    intro g env h t r u p
    unfold GoKeycloak.GetUserGroups GetQueryParams
    cases hq : env.queryParams (.groups p) with
    | error e => simp [hq]
    | ok qp => simp [hq, resultOrError_result],
   by
    intro g env h t r p
    unfold GoKeycloak.GetUsers GetQueryParams serFailed
    cases hq : env.queryParams (.users p) with
    | error e => simp [hq]
    | ok qp => simp [hq, resultOrError_errAny],
   by
    intro g env h t r p
    unfold GoKeycloak.GetUsers GetQueryParams
    cases hq : env.queryParams (.users p) with
    | error e => simp [hq]
    | ok qp => simp [hq, resultOrError_result],
   by
    intro g env h t r rn p
    unfold GoKeycloak.GetUsersByRoleName GetQueryParams serFailed
    cases hq : env.queryParams (.usersByRole p) with
    | error e => simp [hq]
    | ok qp => simp [hq, resultOrError_errAny],
   by
    intro g env h t r rn p
    unfold GoKeycloak.GetUsersByRoleName GetQueryParams
    cases hq : env.queryParams (.usersByRole p) with
    | error e => simp [hq]
    | ok qp => simp [hq, resultOrError_result],
   by
    intro g env h t r c rn p
    unfold GoKeycloak.GetUsersByClientRoleName GetQueryParams serFailed
    cases hq : env.queryParams (.usersByRole p) with
    | error e => simp [hq]
    | ok qp => simp [hq, resultOrError_errAny],
   by
    intro g env h t r c rn p
    unfold GoKeycloak.GetUsersByClientRoleName GetQueryParams
    cases hq : env.queryParams (.usersByRole p) with
    | error e => simp [hq]
    | ok qp => simp [hq, resultOrError_result],
   fun g env h t u r pw tmp => statusAndCheck_errAny g env _ _ _,
   fun g env h t r user => statusAndCheck_errAny g env _ _ _,
   fun g env h t r u gid => statusAndCheck_errAny g env _ _ _,
   fun g env h t r u gid => statusAndCheck_errAny g env _ _ _,
   fun g env h t r u => resultOrError_errAny g env _ _ _ _,
   fun g env h t r u => resultOrError_result g env _ _ _ _,
   fun g env h t r u c => resultOrError_errAny g env _ _ _ _,
   fun g env h t r u c => resultOrError_result g env _ _ _ _,
   fun g env h t r c u roles => statusAndCheck_errAny g env _ _ _,
   fun g env h t r c u roles => statusAndCheck_errAny g env _ _ _,
   fun g env h t r c u roles => statusAndCheck_errAny g env _ _ _,
   fun g env h t r c u roles => statusAndCheck_errAny g env _ _ _,
   by
    intro g env h t r u
    rw [GetUserFederatedIdentities_eq]
    exact resultOrError_errAny g env _ _ _ _,
   by
    intro g env h t r u
    rw [GetUserFederatedIdentities_eq]
    exact resultOrError_result g env _ _ _ _,
   fun g env h t r u pid f => statusAndCheck_errAny g env _ _ _,
   fun g env h t r u pid => statusAndCheck_errAny g env _ _ _,
   fun g env h t r o => resultOrError_errAny g env _ _ _ _,
   fun g env h t r o => resultOrError_result g env _ _ _ _,
   fun g env h t r o => resultOrError_errAny g env _ _ _ _,
   fun g env h t r o => resultOrError_result g env _ _ _ _,
   fun g env h t r role => idOrError_errAny g env _ _ _,
   fun g env h t r role => idOrError_result g env _ _ _,
   fun g env h t r rn => resultOrError_errAny g env _ _ _ _,
   fun g env h t r rn => resultOrError_result g env _ _ _ _,
   fun g env h t r rid => resultOrError_errAny g env _ _ _ _,
   fun g env h t r rid => resultOrError_result g env _ _ _ _,
   by
    intro g env h t r p
    unfold GoKeycloak.GetRealmRoles GetQueryParams serFailed
    cases hq : env.queryParams (.roles p) with
    | error e => simp [hq]
    | ok qp => simp [hq, resultOrError_errAny],
   by
    intro g env h t r p
    unfold GoKeycloak.GetRealmRoles GetQueryParams
    cases hq : env.queryParams (.roles p) with
    | error e => simp [hq]
    | ok qp => simp [hq, resultOrError_result],
   fun g env h t r u => resultOrError_errAny g env _ _ _ _,
   fun g env h t r u => resultOrError_result g env _ _ _ _,
   fun g env h t r gid => resultOrError_errAny g env _ _ _ _,
   fun g env h t r gid => resultOrError_result g env _ _ _ _,
   fun g env h t r rn role => statusAndCheck_errAny g env _ _ _,
   fun g env h t r rid role => statusAndCheck_errAny g env _ _ _,
   fun g env h t r rn => statusAndCheck_errAny g env _ _ _,
   fun g env h t r u roles => statusAndCheck_errAny g env _ _ _,
   fun g env h t r u roles => statusAndCheck_errAny g env _ _ _,
   fun g env h t r gid roles => statusAndCheck_errAny g env _ _ _,
   fun g env h t r gid roles => statusAndCheck_errAny g env _ _ _,
   fun g env h t r rn roles => statusAndCheck_errAny g env _ _ _,
   fun g env h t r rn roles => statusAndCheck_errAny g env _ _ _,
   fun g env h t r rn => resultOrError_errAny g env _ _ _ _,
   fun g env h t r rn => resultOrError_result g env _ _ _ _,
   fun g env h t r rid => resultOrError_errAny g env _ _ _ _,
   fun g env h t r rid => resultOrError_result g env _ _ _ _,
   fun g env h t r rid => resultOrError_errAny g env _ _ _ _,
   fun g env h t r rid => resultOrError_result g env _ _ _ _,
   fun g env h t r u => resultOrError_errAny g env _ _ _ _,
   fun g env h t r u => resultOrError_result g env _ _ _ _,
   fun g env h t r gid => resultOrError_errAny g env _ _ _ _,
   fun g env h t r gid => resultOrError_result g env _ _ _ _,
   fun g env h t r u => resultOrError_errAny g env _ _ _ _,
   fun g env h t r u => resultOrError_result g env _ _ _ _,
   fun g env h t r gid => resultOrError_errAny g env _ _ _ _,
   fun g env h t r gid => resultOrError_result g env _ _ _ _,
   fun g env h t r o => resultOrError_errAny g env _ _ _ _,
   fun g env h t r o => resultOrError_result g env _ _ _ _,
   fun g env h ut r aud rm ps => resultOrError_errAny g env _ _ _ _,
   fun g env h ut r aud rm ps => resultOrError_result g env _ _ _ _⟩

/-- C1 counterexample to the claim as stated: with an environment whose
server answers every request with status 200 and whose query-parameter
serialization always succeeds, GetUserByID on an empty userID still returns a
non-nil error — and issues no HTTP request at all, so no underlying call
failed. -/
theorem err_without_httpFailure_cex :
    ((gDemo.GetUserByID env200 [] "tok" "master" "").err.isSome = true) ∧
    ((gDemo.GetUserByID env200 [] "tok" "master" "").trace = []) :=
  ⟨rfl, rfl⟩

end GoKeycloakModel

namespace GoKeycloakModel

/-- C2 (amended): whenever an operation issues its HTTP request, the first
(int) return value is exactly the status code the HTTP layer reports for that
request's response (the server's status on any response, 0 on a transport
failure), passed through unchanged; when an operation fails locally before
issuing any request it instead returns a locally chosen status — 400 for the
empty-userID guard and the params operations, 500 for GetRealmRoles. -/
theorem status_passthrough :
    (∀ (g : GoKeycloak) (env : Env) (h : Heap) (t r : String) (user : User),
      (g.CreateUser env h t r user).status = (respOf env (theReq (g.CreateUser env h t r user))).statusCode) ∧
    (∀ (g : GoKeycloak) (env : Env) (h : Heap) (t r u : String),
      (g.DeleteUser env h t r u).status = (respOf env (theReq (g.DeleteUser env h t r u))).statusCode) ∧
    (∀ (g : GoKeycloak) (env : Env) (h : Heap) (t r u : String),
      (g.GetUserByID env h t r u).status = (if u = "" then 400 else (respOf env (theReq (g.GetUserByID env h t r u))).statusCode)) ∧
    (∀ (g : GoKeycloak) (env : Env) (h : Heap) (t r : String) (p : GetUsersParams),
      (g.GetUserCount env h t r p).status = (if serFailed env (.users p) then 400 else (respOf env (theReq (g.GetUserCount env h t r p))).statusCode)) ∧
    (∀ (g : GoKeycloak) (env : Env) (h : Heap) (t r u : String) (p : GetGroupsParams),
      (g.GetUserGroups env h t r u p).status = (if serFailed env (.groups p) then 400 else (respOf env (theReq (g.GetUserGroups env h t r u p))).statusCode)) ∧
    (∀ (g : GoKeycloak) (env : Env) (h : Heap) (t r : String) (p : GetUsersParams),
      (g.GetUsers env h t r p).status = (if serFailed env (.users p) then 400 else (respOf env (theReq (g.GetUsers env h t r p))).statusCode)) ∧
    (∀ (g : GoKeycloak) (env : Env) (h : Heap) (t r rn : String) (p : GetUsersByRoleParams),
      (g.GetUsersByRoleName env h t r rn p).status = (if serFailed env (.usersByRole p) then 400 else (respOf env (theReq (g.GetUsersByRoleName env h t r rn p))).statusCode)) ∧
    (∀ (g : GoKeycloak) (env : Env) (h : Heap) (t r c rn : String) (p : GetUsersByRoleParams),
      (g.GetUsersByClientRoleName env h t r c rn p).status = (if serFailed env (.usersByRole p) then 400 else (respOf env (theReq (g.GetUsersByClientRoleName env h t r c rn p))).statusCode)) ∧
    (∀ (g : GoKeycloak) (env : Env) (h : Heap) (t u r pw : String) (tmp : Bool),
      (g.SetPassword env h t u r pw tmp).status = (respOf env (theReq (g.SetPassword env h t u r pw tmp))).statusCode) ∧
    (∀ (g : GoKeycloak) (env : Env) (h : Heap) (t r : String) (user : User),
      (g.UpdateUser env h t r user).status = (respOf env (theReq (g.UpdateUser env h t r user))).statusCode) ∧
    (∀ (g : GoKeycloak) (env : Env) (h : Heap) (t r u gid : String),
      (g.AddUserToGroup env h t r u gid).status = (respOf env (theReq (g.AddUserToGroup env h t r u gid))).statusCode) ∧
    (∀ (g : GoKeycloak) (env : Env) (h : Heap) (t r u gid : String),
      (g.DeleteUserFromGroup env h t r u gid).status = (respOf env (theReq (g.DeleteUserFromGroup env h t r u gid))).statusCode) ∧
    (∀ (g : GoKeycloak) (env : Env) (h : Heap) (t r u : String),
      (g.GetUserSessions env h t r u).status = (respOf env (theReq (g.GetUserSessions env h t r u))).statusCode) ∧
    (∀ (g : GoKeycloak) (env : Env) (h : Heap) (t r u c : String),
      (g.GetUserOfflineSessionsForClient env h t r u c).status = (respOf env (theReq (g.GetUserOfflineSessionsForClient env h t r u c))).statusCode) ∧
    (∀ (g : GoKeycloak) (env : Env) (h : Heap) (t r c u : String) (roles : List Role),
      (g.AddClientRolesToUser env h t r c u roles).status = (respOf env (theReq (g.AddClientRolesToUser env h t r c u roles))).statusCode) ∧
    (∀ (g : GoKeycloak) (env : Env) (h : Heap) (t r c u : String) (roles : List Role),
      (g.AddClientRoleToUser env h t r c u roles).status = (respOf env (theReq (g.AddClientRoleToUser env h t r c u roles))).statusCode) ∧
    (∀ (g : GoKeycloak) (env : Env) (h : Heap) (t r c u : String) (roles : List Role),
      (g.DeleteClientRolesFromUser env h t r c u roles).status = (respOf env (theReq (g.DeleteClientRolesFromUser env h t r c u roles))).statusCode) ∧
    (∀ (g : GoKeycloak) (env : Env) (h : Heap) (t r c u : String) (roles : List Role),
      (g.DeleteClientRoleFromUser env h t r c u roles).status = (respOf env (theReq (g.DeleteClientRoleFromUser env h t r c u roles))).statusCode) ∧
    (∀ (g : GoKeycloak) (env : Env) (h : Heap) (t r u : String),
      (g.GetUserFederatedIdentities env h t r u).status = (respOf env (theReq (g.GetUserFederatedIdentities env h t r u))).statusCode) ∧
    (∀ (g : GoKeycloak) (env : Env) (h : Heap) (t r u pid : String) (f : FederatedIdentityRepresentation),
      (g.CreateUserFederatedIdentity env h t r u pid f).status = (respOf env (theReq (g.CreateUserFederatedIdentity env h t r u pid f))).statusCode) ∧
    (∀ (g : GoKeycloak) (env : Env) (h : Heap) (t r u pid : String),
      (g.DeleteUserFederatedIdentity env h t r u pid).status = (respOf env (theReq (g.DeleteUserFederatedIdentity env h t r u pid))).statusCode) ∧
    (∀ (g : GoKeycloak) (env : Env) (h : Heap) (t r : String) (o : RequestingPartyTokenOptions),
      (g.GetRequestingPartyPermissions env h t r o).status = (respOf env (theReq (g.GetRequestingPartyPermissions env h t r o))).statusCode) ∧
    (∀ (g : GoKeycloak) (env : Env) (h : Heap) (t r : String) (o : RequestingPartyTokenOptions),
      (g.GetRequestingPartyPermissionDecision env h t r o).status = (respOf env (theReq (g.GetRequestingPartyPermissionDecision env h t r o))).statusCode) ∧
    (∀ (g : GoKeycloak) (env : Env) (h : Heap) (t r : String) (role : Role),
      (g.CreateRealmRole env h t r role).status = (respOf env (theReq (g.CreateRealmRole env h t r role))).statusCode) ∧
    (∀ (g : GoKeycloak) (env : Env) (h : Heap) (t r rn : String),
      (g.GetRealmRole env h t r rn).status = (respOf env (theReq (g.GetRealmRole env h t r rn))).statusCode) ∧
    (∀ (g : GoKeycloak) (env : Env) (h : Heap) (t r rid : String),
      (g.GetRealmRoleByID env h t r rid).status = (respOf env (theReq (g.GetRealmRoleByID env h t r rid))).statusCode) ∧
    (∀ (g : GoKeycloak) (env : Env) (h : Heap) (t r : String) (p : GetRoleParams),
      (g.GetRealmRoles env h t r p).status = (if serFailed env (.roles p) then 500 else (respOf env (theReq (g.GetRealmRoles env h t r p))).statusCode)) ∧
    (∀ (g : GoKeycloak) (env : Env) (h : Heap) (t r u : String),
      (g.GetRealmRolesByUserID env h t r u).status = (respOf env (theReq (g.GetRealmRolesByUserID env h t r u))).statusCode) ∧
    (∀ (g : GoKeycloak) (env : Env) (h : Heap) (t r gid : String),
      (g.GetRealmRolesByGroupID env h t r gid).status = (respOf env (theReq (g.GetRealmRolesByGroupID env h t r gid))).statusCode) ∧
    (∀ (g : GoKeycloak) (env : Env) (h : Heap) (t r rn : String) (role : Role),
      (g.UpdateRealmRole env h t r rn role).status = (respOf env (theReq (g.UpdateRealmRole env h t r rn role))).statusCode) ∧
    (∀ (g : GoKeycloak) (env : Env) (h : Heap) (t r rid : String) (role : Role),
      (g.UpdateRealmRoleByID env h t r rid role).status = (respOf env (theReq (g.UpdateRealmRoleByID env h t r rid role))).statusCode) ∧
    (∀ (g : GoKeycloak) (env : Env) (h : Heap) (t r rn : String),
      (g.DeleteRealmRole env h t r rn).status = (respOf env (theReq (g.DeleteRealmRole env h t r rn))).statusCode) ∧
    (∀ (g : GoKeycloak) (env : Env) (h : Heap) (t r u : String) (roles : List Role),
      (g.AddRealmRoleToUser env h t r u roles).status = (respOf env (theReq (g.AddRealmRoleToUser env h t r u roles))).statusCode) ∧
    (∀ (g : GoKeycloak) (env : Env) (h : Heap) (t r u : String) (roles : List Role),
      (g.DeleteRealmRoleFromUser env h t r u roles).status = (respOf env (theReq (g.DeleteRealmRoleFromUser env h t r u roles))).statusCode) ∧
    (∀ (g : GoKeycloak) (env : Env) (h : Heap) (t r gid : String) (roles : List Role),
      (g.AddRealmRoleToGroup env h t r gid roles).status = (respOf env (theReq (g.AddRealmRoleToGroup env h t r gid roles))).statusCode) ∧
    (∀ (g : GoKeycloak) (env : Env) (h : Heap) (t r gid : String) (roles : List Role),
      (g.DeleteRealmRoleFromGroup env h t r gid roles).status = (respOf env (theReq (g.DeleteRealmRoleFromGroup env h t r gid roles))).statusCode) ∧
    (∀ (g : GoKeycloak) (env : Env) (h : Heap) (t r rn : String) (roles : List Role),
      (g.AddRealmRoleComposite env h t r rn roles).status = (respOf env (theReq (g.AddRealmRoleComposite env h t r rn roles))).statusCode) ∧
    (∀ (g : GoKeycloak) (env : Env) (h : Heap) (t r rn : String) (roles : List Role),
      (g.DeleteRealmRoleComposite env h t r rn roles).status = (respOf env (theReq (g.DeleteRealmRoleComposite env h t r rn roles))).statusCode) ∧
    (∀ (g : GoKeycloak) (env : Env) (h : Heap) (t r rn : String),
      (g.GetCompositeRealmRoles env h t r rn).status = (respOf env (theReq (g.GetCompositeRealmRoles env h t r rn))).statusCode) ∧
    (∀ (g : GoKeycloak) (env : Env) (h : Heap) (t r rid : String),
      (g.GetCompositeRolesByRoleID env h t r rid).status = (respOf env (theReq (g.GetCompositeRolesByRoleID env h t r rid))).statusCode) ∧
    (∀ (g : GoKeycloak) (env : Env) (h : Heap) (t r rid : String),
      (g.GetCompositeRealmRolesByRoleID env h t r rid).status = (respOf env (theReq (g.GetCompositeRealmRolesByRoleID env h t r rid))).statusCode) ∧
    (∀ (g : GoKeycloak) (env : Env) (h : Heap) (t r u : String),
      (g.GetCompositeRealmRolesByUserID env h t r u).status = (respOf env (theReq (g.GetCompositeRealmRolesByUserID env h t r u))).statusCode) ∧
    (∀ (g : GoKeycloak) (env : Env) (h : Heap) (t r gid : String),
      (g.GetCompositeRealmRolesByGroupID env h t r gid).status = (respOf env (theReq (g.GetCompositeRealmRolesByGroupID env h t r gid))).statusCode) ∧
    (∀ (g : GoKeycloak) (env : Env) (h : Heap) (t r u : String),
      (g.GetAvailableRealmRolesByUserID env h t r u).status = (respOf env (theReq (g.GetAvailableRealmRolesByUserID env h t r u))).statusCode) ∧
    (∀ (g : GoKeycloak) (env : Env) (h : Heap) (t r gid : String),
      (g.GetAvailableRealmRolesByGroupID env h t r gid).status = (respOf env (theReq (g.GetAvailableRealmRolesByGroupID env h t r gid))).statusCode) ∧
    (∀ (g : GoKeycloak) (env : Env) (h : Heap) (t r : String) (o : RequestingPartyTokenOptions),
      (g.GetRequestingPartyToken env h t r o).status = (respOf env (theReq (g.GetRequestingPartyToken env h t r o))).statusCode) ∧
    (∀ (g : GoKeycloak) (env : Env) (h : Heap) (ut r aud rm : String) (ps : List String),
      (g.EvaluatePermission env h ut r aud rm ps).status = (respOf env (theReq (g.EvaluatePermission env h ut r aud rm ps))).statusCode) :=
  ⟨fun g env h t r user => idOrError_status g env _ _ _,
   fun g env h t r u => statusAndCheck_status g env _ _ _,
   by
    intro g env h t r u
    unfold GoKeycloak.GetUserByID
    by_cases hu : u = "" <;> simp [hu, resultOrError_status],
   by
    intro g env h t r p
    unfold GoKeycloak.GetUserCount GetQueryParams serFailed
    cases hq : env.queryParams (.users p) with
    | error e => simp [hq]
    | ok qp =>
      simp only [hq]
      split <;> simp [theReq, respOf],
   by
    intro g env h t r u p
    unfold GoKeycloak.GetUserGroups GetQueryParams serFailed
    cases hq : env.queryParams (.groups p) with
    | error e => simp [hq]
    | ok qp => simp [hq, resultOrError_status],
   by
    intro g env h t r p
    unfold GoKeycloak.GetUsers GetQueryParams serFailed
    cases hq : env.queryParams (.users p) with
    | error e => simp [hq]
    | ok qp => simp [hq, resultOrError_status],
   by
    intro g env h t r rn p
    unfold GoKeycloak.GetUsersByRoleName GetQueryParams serFailed
    cases hq : env.queryParams (.usersByRole p) with
    | error e => simp [hq]
    | ok qp => simp [hq, resultOrError_status],
   by
    intro g env h t r c rn p
    unfold GoKeycloak.GetUsersByClientRoleName GetQueryParams serFailed
    cases hq : env.queryParams (.usersByRole p) with
    | error e => simp [hq]
    | ok qp => simp [hq, resultOrError_status],
   fun g env h t u r pw tmp => statusAndCheck_status g env _ _ _,
   fun g env h t r user => statusAndCheck_status g env _ _ _,
   fun g env h t r u gid => statusAndCheck_status g env _ _ _,
   fun g env h t r u gid => statusAndCheck_status g env _ _ _,
   fun g env h t r u => resultOrError_status g env _ _ _ _,
   fun g env h t r u c => resultOrError_status g env _ _ _ _,
   fun g env h t r c u roles => statusAndCheck_status g env _ _ _,
   fun g env h t r c u roles => statusAndCheck_status g env _ _ _,
   fun g env h t r c u roles => statusAndCheck_status g env _ _ _,
   fun g env h t r c u roles => statusAndCheck_status g env _ _ _,
   by
    intro g env h t r u
    rw [GetUserFederatedIdentities_eq]
    exact resultOrError_status g env _ _ _ _,
   fun g env h t r u pid f => statusAndCheck_status g env _ _ _,
   fun g env h t r u pid => statusAndCheck_status g env _ _ _,
   fun g env h t r o => resultOrError_status g env _ _ _ _,
   fun g env h t r o => resultOrError_status g env _ _ _ _,
   fun g env h t r role => idOrError_status g env _ _ _,
   fun g env h t r rn => resultOrError_status g env _ _ _ _,
   fun g env h t r rid => resultOrError_status g env _ _ _ _,
   by
    intro g env h t r p
    unfold GoKeycloak.GetRealmRoles GetQueryParams serFailed
    cases hq : env.queryParams (.roles p) with
    | error e => simp [hq]
    | ok qp => simp [hq, resultOrError_status],
   fun g env h t r u => resultOrError_status g env _ _ _ _,
   fun g env h t r gid => resultOrError_status g env _ _ _ _,
   fun g env h t r rn role => statusAndCheck_status g env _ _ _,
   fun g env h t r rid role => statusAndCheck_status g env _ _ _,
   fun g env h t r rn => statusAndCheck_status g env _ _ _,
   fun g env h t r u roles => statusAndCheck_status g env _ _ _,
   fun g env h t r u roles => statusAndCheck_status g env _ _ _,
   fun g env h t r gid roles => statusAndCheck_status g env _ _ _,
   fun g env h t r gid roles => statusAndCheck_status g env _ _ _,
   fun g env h t r rn roles => statusAndCheck_status g env _ _ _,
   fun g env h t r rn roles => statusAndCheck_status g env _ _ _,
   fun g env h t r rn => resultOrError_status g env _ _ _ _,
   fun g env h t r rid => resultOrError_status g env _ _ _ _,
   fun g env h t r rid => resultOrError_status g env _ _ _ _,
   fun g env h t r u => resultOrError_status g env _ _ _ _,
   fun g env h t r gid => resultOrError_status g env _ _ _ _,
   fun g env h t r u => resultOrError_status g env _ _ _ _,
   fun g env h t r gid => resultOrError_status g env _ _ _ _,
   fun g env h t r o => resultOrError_status g env _ _ _ _,
   fun g env h ut r aud rm ps => resultOrError_status g env _ _ _ _⟩

/-- C2 counterexample to the claim as stated: against a server that answers
every request with status 200, GetUserByID on an empty userID returns 400 as
its first return value while issuing no request at all, so the returned
status is not the status code of any server response. -/
theorem status_not_passthrough_cex :
    ((gDemo.GetUserByID env200 [] "tok" "master" "").status = 400) ∧
    ((gDemo.GetUserByID env200 [] "tok" "master" "").trace = []) :=
  ⟨rfl, rfl⟩

end GoKeycloakModel

namespace GoKeycloakModel

/-- C4 (amended): every invocation of a public operation issues at most one
HTTP request — never a retry, a second request, or a cached answer — and
exactly one unless a local pre-request failure short-circuits the call (the
empty-userID guard of GetUserByID, or a query-parameter serialization
failure), in which case no request is issued at all. -/
theorem at_most_one_request :
    (∀ (g : GoKeycloak) (env : Env) (h : Heap) (t r : String) (user : User),
      (g.CreateUser env h t r user).trace.length = 1) ∧
    (∀ (g : GoKeycloak) (env : Env) (h : Heap) (t r u : String),
      (g.DeleteUser env h t r u).trace.length = 1) ∧
    (∀ (g : GoKeycloak) (env : Env) (h : Heap) (t r u : String),
      (g.GetUserByID env h t r u).trace.length = (if u = "" then 0 else 1)) ∧
    (∀ (g : GoKeycloak) (env : Env) (h : Heap) (t r : String) (p : GetUsersParams),
      (g.GetUserCount env h t r p).trace.length = (if serFailed env (.users p) then 0 else 1)) ∧
    (∀ (g : GoKeycloak) (env : Env) (h : Heap) (t r u : String) (p : GetGroupsParams),
      (g.GetUserGroups env h t r u p).trace.length = (if serFailed env (.groups p) then 0 else 1)) ∧
    (∀ (g : GoKeycloak) (env : Env) (h : Heap) (t r : String) (p : GetUsersParams),
      (g.GetUsers env h t r p).trace.length = (if serFailed env (.users p) then 0 else 1)) ∧
    (∀ (g : GoKeycloak) (env : Env) (h : Heap) (t r rn : String) (p : GetUsersByRoleParams),
      (g.GetUsersByRoleName env h t r rn p).trace.length = (if serFailed env (.usersByRole p) then 0 else 1)) ∧
    (∀ (g : GoKeycloak) (env : Env) (h : Heap) (t r c rn : String) (p : GetUsersByRoleParams),
      (g.GetUsersByClientRoleName env h t r c rn p).trace.length = (if serFailed env (.usersByRole p) then 0 else 1)) ∧
    (∀ (g : GoKeycloak) (env : Env) (h : Heap) (t u r pw : String) (tmp : Bool),
      (g.SetPassword env h t u r pw tmp).trace.length = 1) ∧
    (∀ (g : GoKeycloak) (env : Env) (h : Heap) (t r : String) (user : User),
      (g.UpdateUser env h t r user).trace.length = 1) ∧
    (∀ (g : GoKeycloak) (env : Env) (h : Heap) (t r u gid : String),
      (g.AddUserToGroup env h t r u gid).trace.length = 1) ∧
    (∀ (g : GoKeycloak) (env : Env) (h : Heap) (t r u gid : String),
      (g.DeleteUserFromGroup env h t r u gid).trace.length = 1) ∧
    (∀ (g : GoKeycloak) (env : Env) (h : Heap) (t r u : String),
      (g.GetUserSessions env h t r u).trace.length = 1) ∧
    (∀ (g : GoKeycloak) (env : Env) (h : Heap) (t r u c : String),
      (g.GetUserOfflineSessionsForClient env h t r u c).trace.length = 1) ∧
    (∀ (g : GoKeycloak) (env : Env) (h : Heap) (t r c u : String) (roles : List Role),
      (g.AddClientRolesToUser env h t r c u roles).trace.length = 1) ∧
    (∀ (g : GoKeycloak) (env : Env) (h : Heap) (t r c u : String) (roles : List Role),
      (g.AddClientRoleToUser env h t r c u roles).trace.length = 1) ∧
    (∀ (g : GoKeycloak) (env : Env) (h : Heap) (t r c u : String) (roles : List Role),
      (g.DeleteClientRolesFromUser env h t r c u roles).trace.length = 1) ∧
    (∀ (g : GoKeycloak) (env : Env) (h : Heap) (t r c u : String) (roles : List Role),
      (g.DeleteClientRoleFromUser env h t r c u roles).trace.length = 1) ∧
    (∀ (g : GoKeycloak) (env : Env) (h : Heap) (t r u : String),
      (g.GetUserFederatedIdentities env h t r u).trace.length = 1) ∧
    (∀ (g : GoKeycloak) (env : Env) (h : Heap) (t r u pid : String) (f : FederatedIdentityRepresentation),
      (g.CreateUserFederatedIdentity env h t r u pid f).trace.length = 1) ∧
    (∀ (g : GoKeycloak) (env : Env) (h : Heap) (t r u pid : String),
      (g.DeleteUserFederatedIdentity env h t r u pid).trace.length = 1) ∧
    (∀ (g : GoKeycloak) (env : Env) (h : Heap) (t r : String) (o : RequestingPartyTokenOptions),
      (g.GetRequestingPartyPermissions env h t r o).trace.length = 1) ∧
    (∀ (g : GoKeycloak) (env : Env) (h : Heap) (t r : String) (o : RequestingPartyTokenOptions),
      (g.GetRequestingPartyPermissionDecision env h t r o).trace.length = 1) ∧
    (∀ (g : GoKeycloak) (env : Env) (h : Heap) (t r : String) (role : Role),
      (g.CreateRealmRole env h t r role).trace.length = 1) ∧
    (∀ (g : GoKeycloak) (env : Env) (h : Heap) (t r rn : String),
      (g.GetRealmRole env h t r rn).trace.length = 1) ∧
    (∀ (g : GoKeycloak) (env : Env) (h : Heap) (t r rid : String),
      (g.GetRealmRoleByID env h t r rid).trace.length = 1) ∧
    (∀ (g : GoKeycloak) (env : Env) (h : Heap) (t r : String) (p : GetRoleParams),
      (g.GetRealmRoles env h t r p).trace.length = (if serFailed env (.roles p) then 0 else 1)) ∧
    (∀ (g : GoKeycloak) (env : Env) (h : Heap) (t r u : String),
      (g.GetRealmRolesByUserID env h t r u).trace.length = 1) ∧
    (∀ (g : GoKeycloak) (env : Env) (h : Heap) (t r gid : String),
      (g.GetRealmRolesByGroupID env h t r gid).trace.length = 1) ∧
    (∀ (g : GoKeycloak) (env : Env) (h : Heap) (t r rn : String) (role : Role),
      (g.UpdateRealmRole env h t r rn role).trace.length = 1) ∧
    (∀ (g : GoKeycloak) (env : Env) (h : Heap) (t r rid : String) (role : Role),
      (g.UpdateRealmRoleByID env h t r rid role).trace.length = 1) ∧
    (∀ (g : GoKeycloak) (env : Env) (h : Heap) (t r rn : String),
      (g.DeleteRealmRole env h t r rn).trace.length = 1) ∧
    (∀ (g : GoKeycloak) (env : Env) (h : Heap) (t r u : String) (roles : List Role),
      (g.AddRealmRoleToUser env h t r u roles).trace.length = 1) ∧
    (∀ (g : GoKeycloak) (env : Env) (h : Heap) (t r u : String) (roles : List Role),
      (g.DeleteRealmRoleFromUser env h t r u roles).trace.length = 1) ∧
    (∀ (g : GoKeycloak) (env : Env) (h : Heap) (t r gid : String) (roles : List Role),
      (g.AddRealmRoleToGroup env h t r gid roles).trace.length = 1) ∧
    (∀ (g : GoKeycloak) (env : Env) (h : Heap) (t r gid : String) (roles : List Role),
      (g.DeleteRealmRoleFromGroup env h t r gid roles).trace.length = 1) ∧
    (∀ (g : GoKeycloak) (env : Env) (h : Heap) (t r rn : String) (roles : List Role),
      (g.AddRealmRoleComposite env h t r rn roles).trace.length = 1) ∧
    (∀ (g : GoKeycloak) (env : Env) (h : Heap) (t r rn : String) (roles : List Role),
      (g.DeleteRealmRoleComposite env h t r rn roles).trace.length = 1) ∧
    (∀ (g : GoKeycloak) (env : Env) (h : Heap) (t r rn : String),
      (g.GetCompositeRealmRoles env h t r rn).trace.length = 1) ∧
    (∀ (g : GoKeycloak) (env : Env) (h : Heap) (t r rid : String),
      (g.GetCompositeRolesByRoleID env h t r rid).trace.length = 1) ∧
    (∀ (g : GoKeycloak) (env : Env) (h : Heap) (t r rid : String),
      (g.GetCompositeRealmRolesByRoleID env h t r rid).trace.length = 1) ∧
    (∀ (g : GoKeycloak) (env : Env) (h : Heap) (t r u : String),
      (g.GetCompositeRealmRolesByUserID env h t r u).trace.length = 1) ∧
    (∀ (g : GoKeycloak) (env : Env) (h : Heap) (t r gid : String),
      (g.GetCompositeRealmRolesByGroupID env h t r gid).trace.length = 1) ∧
    (∀ (g : GoKeycloak) (env : Env) (h : Heap) (t r u : String),
      (g.GetAvailableRealmRolesByUserID env h t r u).trace.length = 1) ∧
    (∀ (g : GoKeycloak) (env : Env) (h : Heap) (t r gid : String),
      (g.GetAvailableRealmRolesByGroupID env h t r gid).trace.length = 1) ∧
    (∀ (g : GoKeycloak) (env : Env) (h : Heap) (t r : String) (o : RequestingPartyTokenOptions),
      (g.GetRequestingPartyToken env h t r o).trace.length = 1) ∧
    (∀ (g : GoKeycloak) (env : Env) (h : Heap) (ut r aud rm : String) (ps : List String),
      (g.EvaluatePermission env h ut r aud rm ps).trace.length = 1) :=
  ⟨fun g env h t r user => congrArg List.length (idOrError_trace g env _ _ _),
   fun g env h t r u => congrArg List.length (statusAndCheck_trace g env _ _ _),
   by
    intro g env h t r u
    unfold GoKeycloak.GetUserByID
    by_cases hu : u = "" <;> simp [hu, resultOrError_trace],
   by
    intro g env h t r p
    unfold GoKeycloak.GetUserCount GetQueryParams serFailed
    cases hq : env.queryParams (.users p) with
    | error e => simp [hq]
    | ok qp => simp only [hq]; split <;> rfl,
   by
    intro g env h t r u p
    unfold GoKeycloak.GetUserGroups GetQueryParams serFailed
    cases hq : env.queryParams (.groups p) with
    | error e => simp [hq]
    | ok qp => simp [hq, resultOrError_trace],
   by
    intro g env h t r p
    unfold GoKeycloak.GetUsers GetQueryParams serFailed
    cases hq : env.queryParams (.users p) with
    | error e => simp [hq]
    | ok qp => simp [hq, resultOrError_trace],
   by
    intro g env h t r rn p
    unfold GoKeycloak.GetUsersByRoleName GetQueryParams serFailed
    cases hq : env.queryParams (.usersByRole p) with
    | error e => simp [hq]
    | ok qp => simp [hq, resultOrError_trace],
   by
    intro g env h t r c rn p
    unfold GoKeycloak.GetUsersByClientRoleName GetQueryParams serFailed
    cases hq : env.queryParams (.usersByRole p) with
    | error e => simp [hq]
    | ok qp => simp [hq, resultOrError_trace],
   fun g env h t u r pw tmp => congrArg List.length (statusAndCheck_trace g env _ _ _),
   fun g env h t r user => congrArg List.length (statusAndCheck_trace g env _ _ _),
   fun g env h t r u gid => congrArg List.length (statusAndCheck_trace g env _ _ _),
   fun g env h t r u gid => congrArg List.length (statusAndCheck_trace g env _ _ _),
   fun g env h t r u => congrArg List.length (resultOrError_trace g env _ _ _ _),
   fun g env h t r u c => congrArg List.length (resultOrError_trace g env _ _ _ _),
   fun g env h t r c u roles => congrArg List.length (statusAndCheck_trace g env _ _ _),
   fun g env h t r c u roles => congrArg List.length (statusAndCheck_trace g env _ _ _),
   fun g env h t r c u roles => congrArg List.length (statusAndCheck_trace g env _ _ _),
   fun g env h t r c u roles => congrArg List.length (statusAndCheck_trace g env _ _ _),
   by
    intro g env h t r u
    rw [GetUserFederatedIdentities_eq]
    exact congrArg List.length (resultOrError_trace g env _ _ _ _),
   fun g env h t r u pid f => congrArg List.length (statusAndCheck_trace g env _ _ _),
   fun g env h t r u pid => congrArg List.length (statusAndCheck_trace g env _ _ _),
   fun g env h t r o => congrArg List.length (resultOrError_trace g env _ _ _ _),
   fun g env h t r o => congrArg List.length (resultOrError_trace g env _ _ _ _),
   fun g env h t r role => congrArg List.length (idOrError_trace g env _ _ _),
   fun g env h t r rn => congrArg List.length (resultOrError_trace g env _ _ _ _),
   fun g env h t r rid => congrArg List.length (resultOrError_trace g env _ _ _ _),
   by
    intro g env h t r p
    unfold GoKeycloak.GetRealmRoles GetQueryParams serFailed
    cases hq : env.queryParams (.roles p) with
    | error e => simp [hq]
    | ok qp => simp [hq, resultOrError_trace],
   fun g env h t r u => congrArg List.length (resultOrError_trace g env _ _ _ _),
   fun g env h t r gid => congrArg List.length (resultOrError_trace g env _ _ _ _),
   fun g env h t r rn role => congrArg List.length (statusAndCheck_trace g env _ _ _),
   fun g env h t r rid role => congrArg List.length (statusAndCheck_trace g env _ _ _),
   fun g env h t r rn => congrArg List.length (statusAndCheck_trace g env _ _ _),
   fun g env h t r u roles => congrArg List.length (statusAndCheck_trace g env _ _ _),
   fun g env h t r u roles => congrArg List.length (statusAndCheck_trace g env _ _ _),
   fun g env h t r gid roles => congrArg List.length (statusAndCheck_trace g env _ _ _),
   fun g env h t r gid roles => congrArg List.length (statusAndCheck_trace g env _ _ _),
   fun g env h t r rn roles => congrArg List.length (statusAndCheck_trace g env _ _ _),
   fun g env h t r rn roles => congrArg List.length (statusAndCheck_trace g env _ _ _),
   fun g env h t r rn => congrArg List.length (resultOrError_trace g env _ _ _ _),
   fun g env h t r rid => congrArg List.length (resultOrError_trace g env _ _ _ _),
   fun g env h t r rid => congrArg List.length (resultOrError_trace g env _ _ _ _),
   fun g env h t r u => congrArg List.length (resultOrError_trace g env _ _ _ _),
   fun g env h t r gid => congrArg List.length (resultOrError_trace g env _ _ _ _),
   fun g env h t r u => congrArg List.length (resultOrError_trace g env _ _ _ _),
   fun g env h t r gid => congrArg List.length (resultOrError_trace g env _ _ _ _),
   fun g env h t r o => congrArg List.length (resultOrError_trace g env _ _ _ _),
   fun g env h ut r aud rm ps => congrArg List.length (resultOrError_trace g env _ _ _ _)⟩

/-- C4 counterexample to the claim as stated: GetUserByID invoked with an
empty userID issues zero HTTP requests, not exactly one. -/
theorem request_count_zero_cex :
    (gDemo.GetUserByID env200 [] "tok" "master" "").trace.length = 0 :=
  rfl

/-- C3: whenever an operation actually issued its HTTP request and that call
failed (non-success status or transport failure), the returned error wraps
the operation's fixed, call-specific description string — the same string on
every failing invocation of that operation. -/
theorem static_error_description :
    (∀ (g : GoKeycloak) (env : Env) (h : Heap) (t r : String) (user : User),
      (g.CreateUser env h t r user).trace ≠ [] →
      (g.CreateUser env h t r user).err.isSome = true →
      errTopD (g.CreateUser env h t r user).err = "could not create user") ∧
    (∀ (g : GoKeycloak) (env : Env) (h : Heap) (t r u : String),
      (g.DeleteUser env h t r u).trace ≠ [] →
      (g.DeleteUser env h t r u).err.isSome = true →
      errTopD (g.DeleteUser env h t r u).err = "could not delete user") ∧
    (∀ (g : GoKeycloak) (env : Env) (h : Heap) (t r u : String),
      (g.GetUserByID env h t r u).trace ≠ [] →
      (g.GetUserByID env h t r u).err.isSome = true →
      errTopD (g.GetUserByID env h t r u).err = "could not get user by id") ∧
    (∀ (g : GoKeycloak) (env : Env) (h : Heap) (t r : String) (p : GetUsersParams),
      (g.GetUserCount env h t r p).trace ≠ [] →
      (g.GetUserCount env h t r p).err.isSome = true →
      errTopD (g.GetUserCount env h t r p).err = "could not get user count") ∧
    (∀ (g : GoKeycloak) (env : Env) (h : Heap) (t r u : String) (p : GetGroupsParams),
      (g.GetUserGroups env h t r u p).trace ≠ [] →
      (g.GetUserGroups env h t r u p).err.isSome = true →
      errTopD (g.GetUserGroups env h t r u p).err = "could not get user groups") ∧
    (∀ (g : GoKeycloak) (env : Env) (h : Heap) (t r : String) (p : GetUsersParams),
      (g.GetUsers env h t r p).trace ≠ [] →
      (g.GetUsers env h t r p).err.isSome = true →
      errTopD (g.GetUsers env h t r p).err = "could not get users") ∧
    (∀ (g : GoKeycloak) (env : Env) (h : Heap) (t r rn : String) (p : GetUsersByRoleParams),
      (g.GetUsersByRoleName env h t r rn p).trace ≠ [] →
      (g.GetUsersByRoleName env h t r rn p).err.isSome = true →
      errTopD (g.GetUsersByRoleName env h t r rn p).err = "could not get users by role name") ∧
    (∀ (g : GoKeycloak) (env : Env) (h : Heap) (t r c rn : String) (p : GetUsersByRoleParams),
      (g.GetUsersByClientRoleName env h t r c rn p).trace ≠ [] →
      (g.GetUsersByClientRoleName env h t r c rn p).err.isSome = true →
      errTopD (g.GetUsersByClientRoleName env h t r c rn p).err = "could not get users by client role name") ∧
    (∀ (g : GoKeycloak) (env : Env) (h : Heap) (t u r pw : String) (tmp : Bool),
      (g.SetPassword env h t u r pw tmp).trace ≠ [] →
      (g.SetPassword env h t u r pw tmp).err.isSome = true →
      errTopD (g.SetPassword env h t u r pw tmp).err = "could not set password") ∧
    (∀ (g : GoKeycloak) (env : Env) (h : Heap) (t r : String) (user : User),
      (g.UpdateUser env h t r user).trace ≠ [] →
      (g.UpdateUser env h t r user).err.isSome = true →
      errTopD (g.UpdateUser env h t r user).err = "could not update user") ∧
    (∀ (g : GoKeycloak) (env : Env) (h : Heap) (t r u gid : String),
      (g.AddUserToGroup env h t r u gid).trace ≠ [] →
      (g.AddUserToGroup env h t r u gid).err.isSome = true →
      errTopD (g.AddUserToGroup env h t r u gid).err = "could not add user to group") ∧
    (∀ (g : GoKeycloak) (env : Env) (h : Heap) (t r u gid : String),
      (g.DeleteUserFromGroup env h t r u gid).trace ≠ [] →
      (g.DeleteUserFromGroup env h t r u gid).err.isSome = true →
      errTopD (g.DeleteUserFromGroup env h t r u gid).err = "could not delete user from group") ∧
    (∀ (g : GoKeycloak) (env : Env) (h : Heap) (t r u : String),
      (g.GetUserSessions env h t r u).trace ≠ [] →
      (g.GetUserSessions env h t r u).err.isSome = true →
      errTopD (g.GetUserSessions env h t r u).err = "could not get user sessions") ∧
    (∀ (g : GoKeycloak) (env : Env) (h : Heap) (t r u c : String),
      (g.GetUserOfflineSessionsForClient env h t r u c).trace ≠ [] →
      (g.GetUserOfflineSessionsForClient env h t r u c).err.isSome = true →
      errTopD (g.GetUserOfflineSessionsForClient env h t r u c).err = "could not get user offline sessions for client") ∧
    (∀ (g : GoKeycloak) (env : Env) (h : Heap) (t r c u : String) (roles : List Role),
      (g.AddClientRolesToUser env h t r c u roles).trace ≠ [] →
      (g.AddClientRolesToUser env h t r c u roles).err.isSome = true →
      errTopD (g.AddClientRolesToUser env h t r c u roles).err = "could not add client role to user") ∧
    (∀ (g : GoKeycloak) (env : Env) (h : Heap) (t r c u : String) (roles : List Role),
      (g.AddClientRoleToUser env h t r c u roles).trace ≠ [] →
      (g.AddClientRoleToUser env h t r c u roles).err.isSome = true →
      errTopD (g.AddClientRoleToUser env h t r c u roles).err = "could not add client role to user") ∧
    (∀ (g : GoKeycloak) (env : Env) (h : Heap) (t r c u : String) (roles : List Role),
      (g.DeleteClientRolesFromUser env h t r c u roles).trace ≠ [] →
      (g.DeleteClientRolesFromUser env h t r c u roles).err.isSome = true →
      errTopD (g.DeleteClientRolesFromUser env h t r c u roles).err = "could not delete client role from user") ∧
    (∀ (g : GoKeycloak) (env : Env) (h : Heap) (t r c u : String) (roles : List Role),
      (g.DeleteClientRoleFromUser env h t r c u roles).trace ≠ [] →
      (g.DeleteClientRoleFromUser env h t r c u roles).err.isSome = true →
      errTopD (g.DeleteClientRoleFromUser env h t r c u roles).err = "could not delete client role from user") ∧
    (∀ (g : GoKeycloak) (env : Env) (h : Heap) (t r u : String),
      (g.GetUserFederatedIdentities env h t r u).trace ≠ [] →
      (g.GetUserFederatedIdentities env h t r u).err.isSome = true →
      errTopD (g.GetUserFederatedIdentities env h t r u).err = "could not get user federated identities") ∧
    (∀ (g : GoKeycloak) (env : Env) (h : Heap) (t r u pid : String) (f : FederatedIdentityRepresentation),
      (g.CreateUserFederatedIdentity env h t r u pid f).trace ≠ [] →
      (g.CreateUserFederatedIdentity env h t r u pid f).err.isSome = true →
      errTopD (g.CreateUserFederatedIdentity env h t r u pid f).err = "could not create user federeated identity") ∧
    (∀ (g : GoKeycloak) (env : Env) (h : Heap) (t r u pid : String),
      (g.DeleteUserFederatedIdentity env h t r u pid).trace ≠ [] →
      (g.DeleteUserFederatedIdentity env h t r u pid).err.isSome = true →
      errTopD (g.DeleteUserFederatedIdentity env h t r u pid).err = "could not delete user federeated identity") ∧
    (∀ (g : GoKeycloak) (env : Env) (h : Heap) (t r : String) (o : RequestingPartyTokenOptions),
      (g.GetRequestingPartyPermissions env h t r o).trace ≠ [] →
      (g.GetRequestingPartyPermissions env h t r o).err.isSome = true →
      errTopD (g.GetRequestingPartyPermissions env h t r o).err = "could not get requesting party token") ∧
    (∀ (g : GoKeycloak) (env : Env) (h : Heap) (t r : String) (o : RequestingPartyTokenOptions),
      (g.GetRequestingPartyPermissionDecision env h t r o).trace ≠ [] →
      (g.GetRequestingPartyPermissionDecision env h t r o).err.isSome = true →
      errTopD (g.GetRequestingPartyPermissionDecision env h t r o).err = "could not get requesting party token") ∧
    (∀ (g : GoKeycloak) (env : Env) (h : Heap) (t r : String) (role : Role),
      (g.CreateRealmRole env h t r role).trace ≠ [] →
      (g.CreateRealmRole env h t r role).err.isSome = true →
      errTopD (g.CreateRealmRole env h t r role).err = "could not create realm role") ∧
    (∀ (g : GoKeycloak) (env : Env) (h : Heap) (t r rn : String),
      (g.GetRealmRole env h t r rn).trace ≠ [] →
      (g.GetRealmRole env h t r rn).err.isSome = true →
      errTopD (g.GetRealmRole env h t r rn).err = "could not get realm role") ∧
    (∀ (g : GoKeycloak) (env : Env) (h : Heap) (t r rid : String),
      (g.GetRealmRoleByID env h t r rid).trace ≠ [] →
      (g.GetRealmRoleByID env h t r rid).err.isSome = true →
      errTopD (g.GetRealmRoleByID env h t r rid).err = "could not get realm role") ∧
    (∀ (g : GoKeycloak) (env : Env) (h : Heap) (t r : String) (p : GetRoleParams),
      (g.GetRealmRoles env h t r p).trace ≠ [] →
      (g.GetRealmRoles env h t r p).err.isSome = true →
      errTopD (g.GetRealmRoles env h t r p).err = "could not get realm roles") ∧
    (∀ (g : GoKeycloak) (env : Env) (h : Heap) (t r u : String),
      (g.GetRealmRolesByUserID env h t r u).trace ≠ [] →
      (g.GetRealmRolesByUserID env h t r u).err.isSome = true →
      errTopD (g.GetRealmRolesByUserID env h t r u).err = "could not get realm roles by user id") ∧
    (∀ (g : GoKeycloak) (env : Env) (h : Heap) (t r gid : String),
      (g.GetRealmRolesByGroupID env h t r gid).trace ≠ [] →
      (g.GetRealmRolesByGroupID env h t r gid).err.isSome = true →
      errTopD (g.GetRealmRolesByGroupID env h t r gid).err = "could not get realm roles by group id") ∧
    (∀ (g : GoKeycloak) (env : Env) (h : Heap) (t r rn : String) (role : Role),
      (g.UpdateRealmRole env h t r rn role).trace ≠ [] →
      (g.UpdateRealmRole env h t r rn role).err.isSome = true →
      errTopD (g.UpdateRealmRole env h t r rn role).err = "could not update realm role") ∧
    (∀ (g : GoKeycloak) (env : Env) (h : Heap) (t r rid : String) (role : Role),
      (g.UpdateRealmRoleByID env h t r rid role).trace ≠ [] →
      (g.UpdateRealmRoleByID env h t r rid role).err.isSome = true →
      errTopD (g.UpdateRealmRoleByID env h t r rid role).err = "could not update realm role") ∧
    (∀ (g : GoKeycloak) (env : Env) (h : Heap) (t r rn : String),
      (g.DeleteRealmRole env h t r rn).trace ≠ [] →
      (g.DeleteRealmRole env h t r rn).err.isSome = true →
      errTopD (g.DeleteRealmRole env h t r rn).err = "could not delete realm role") ∧
    (∀ (g : GoKeycloak) (env : Env) (h : Heap) (t r u : String) (roles : List Role),
      (g.AddRealmRoleToUser env h t r u roles).trace ≠ [] →
      (g.AddRealmRoleToUser env h t r u roles).err.isSome = true →
      errTopD (g.AddRealmRoleToUser env h t r u roles).err = "could not add realm role to user") ∧
    (∀ (g : GoKeycloak) (env : Env) (h : Heap) (t r u : String) (roles : List Role),
      (g.DeleteRealmRoleFromUser env h t r u roles).trace ≠ [] →
      (g.DeleteRealmRoleFromUser env h t r u roles).err.isSome = true →
      errTopD (g.DeleteRealmRoleFromUser env h t r u roles).err = "could not delete realm role from user") ∧
    (∀ (g : GoKeycloak) (env : Env) (h : Heap) (t r gid : String) (roles : List Role),
      (g.AddRealmRoleToGroup env h t r gid roles).trace ≠ [] →
      (g.AddRealmRoleToGroup env h t r gid roles).err.isSome = true →
      errTopD (g.AddRealmRoleToGroup env h t r gid roles).err = "could not add realm role to group") ∧
    (∀ (g : GoKeycloak) (env : Env) (h : Heap) (t r gid : String) (roles : List Role),
      (g.DeleteRealmRoleFromGroup env h t r gid roles).trace ≠ [] →
      (g.DeleteRealmRoleFromGroup env h t r gid roles).err.isSome = true →
      errTopD (g.DeleteRealmRoleFromGroup env h t r gid roles).err = "could not delete realm role from group") ∧
    (∀ (g : GoKeycloak) (env : Env) (h : Heap) (t r rn : String) (roles : List Role),
      (g.AddRealmRoleComposite env h t r rn roles).trace ≠ [] →
      (g.AddRealmRoleComposite env h t r rn roles).err.isSome = true →
      errTopD (g.AddRealmRoleComposite env h t r rn roles).err = "could not add realm role composite") ∧
    (∀ (g : GoKeycloak) (env : Env) (h : Heap) (t r rn : String) (roles : List Role),
      (g.DeleteRealmRoleComposite env h t r rn roles).trace ≠ [] →
      (g.DeleteRealmRoleComposite env h t r rn roles).err.isSome = true →
      errTopD (g.DeleteRealmRoleComposite env h t r rn roles).err = "could not delete realm role composite") ∧
    (∀ (g : GoKeycloak) (env : Env) (h : Heap) (t r rn : String),
      (g.GetCompositeRealmRoles env h t r rn).trace ≠ [] →
      (g.GetCompositeRealmRoles env h t r rn).err.isSome = true →
      errTopD (g.GetCompositeRealmRoles env h t r rn).err = "could not get composite realm roles by role") ∧
    (∀ (g : GoKeycloak) (env : Env) (h : Heap) (t r rid : String),
      (g.GetCompositeRolesByRoleID env h t r rid).trace ≠ [] →
      (g.GetCompositeRolesByRoleID env h t r rid).err.isSome = true →
      errTopD (g.GetCompositeRolesByRoleID env h t r rid).err = "could not get composite client roles by role id") ∧
    (∀ (g : GoKeycloak) (env : Env) (h : Heap) (t r rid : String),
      (g.GetCompositeRealmRolesByRoleID env h t r rid).trace ≠ [] →
      (g.GetCompositeRealmRolesByRoleID env h t r rid).err.isSome = true →
      errTopD (g.GetCompositeRealmRolesByRoleID env h t r rid).err = "could not get composite client roles by role id") ∧
    (∀ (g : GoKeycloak) (env : Env) (h : Heap) (t r u : String),
      (g.GetCompositeRealmRolesByUserID env h t r u).trace ≠ [] →
      (g.GetCompositeRealmRolesByUserID env h t r u).err.isSome = true →
      errTopD (g.GetCompositeRealmRolesByUserID env h t r u).err = "could not get composite client roles by user id") ∧
    (∀ (g : GoKeycloak) (env : Env) (h : Heap) (t r gid : String),
      (g.GetCompositeRealmRolesByGroupID env h t r gid).trace ≠ [] →
      (g.GetCompositeRealmRolesByGroupID env h t r gid).err.isSome = true →
      errTopD (g.GetCompositeRealmRolesByGroupID env h t r gid).err = "could not get composite client roles by user id") ∧
    (∀ (g : GoKeycloak) (env : Env) (h : Heap) (t r u : String),
      (g.GetAvailableRealmRolesByUserID env h t r u).trace ≠ [] →
      (g.GetAvailableRealmRolesByUserID env h t r u).err.isSome = true →
      errTopD (g.GetAvailableRealmRolesByUserID env h t r u).err = "could not get available client roles by user id") ∧
    (∀ (g : GoKeycloak) (env : Env) (h : Heap) (t r gid : String),
      (g.GetAvailableRealmRolesByGroupID env h t r gid).trace ≠ [] →
      (g.GetAvailableRealmRolesByGroupID env h t r gid).err.isSome = true →
      errTopD (g.GetAvailableRealmRolesByGroupID env h t r gid).err = "could not get available client roles by user id") ∧
    (∀ (g : GoKeycloak) (env : Env) (h : Heap) (t r : String) (o : RequestingPartyTokenOptions),
      (g.GetRequestingPartyToken env h t r o).trace ≠ [] →
      (g.GetRequestingPartyToken env h t r o).err.isSome = true →
      errTopD (g.GetRequestingPartyToken env h t r o).err = "could not get requesting party token") ∧
    (∀ (g : GoKeycloak) (env : Env) (h : Heap) (ut r aud rm : String) (ps : List String),
      (g.EvaluatePermission env h ut r aud rm ps).trace ≠ [] →
      (g.EvaluatePermission env h ut r aud rm ps).err.isSome = true →
      errTopD (g.EvaluatePermission env h ut r aud rm ps).err = "could not get requesting party token") :=
  ⟨fun g env h t r user => fun _ => idOrError_errTop g env _ _ _,
   fun g env h t r u => fun _ => statusAndCheck_errTop g env _ _ _,
   by
    intro g env h t r u
    unfold GoKeycloak.GetUserByID
    by_cases hu : u = ""
    · simp [hu]
    · rw [if_neg hu]
      exact fun _ => resultOrError_errTop g env _ _ _ _,
   by
    intro g env h t r p
    unfold GoKeycloak.GetUserCount GetQueryParams
    cases hq : env.queryParams (.users p) with
    | error e => simp [hq]
    | ok qp =>
      simp only [hq]
      split
      · exact fun _ _ => rfl
      · simp,
   by
    intro g env h t r u p
    unfold GoKeycloak.GetUserGroups GetQueryParams
    cases hq : env.queryParams (.groups p) with
    | error e => simp [hq]
    | ok qp =>
      simp only [hq]
      exact fun _ => resultOrError_errTop g env _ _ _ _,
   by
    intro g env h t r p
    unfold GoKeycloak.GetUsers GetQueryParams
    cases hq : env.queryParams (.users p) with
    | error e => simp [hq]
    | ok qp =>
      simp only [hq]
      exact fun _ => resultOrError_errTop g env _ _ _ _,
   by
    intro g env h t r rn p
    unfold GoKeycloak.GetUsersByRoleName GetQueryParams
    cases hq : env.queryParams (.usersByRole p) with
    | error e => simp [hq]
    | ok qp =>
      simp only [hq]
      exact fun _ => resultOrError_errTop g env _ _ _ _,
   by
    intro g env h t r c rn p
    unfold GoKeycloak.GetUsersByClientRoleName GetQueryParams
    cases hq : env.queryParams (.usersByRole p) with
    | error e => simp [hq]
    | ok qp =>
      simp only [hq]
      exact fun _ => resultOrError_errTop g env _ _ _ _,
   fun g env h t u r pw tmp => fun _ => statusAndCheck_errTop g env _ _ _,
   fun g env h t r user => fun _ => statusAndCheck_errTop g env _ _ _,
   fun g env h t r u gid => fun _ => statusAndCheck_errTop g env _ _ _,
   fun g env h t r u gid => fun _ => statusAndCheck_errTop g env _ _ _,
   fun g env h t r u => fun _ => resultOrError_errTop g env _ _ _ _,
   fun g env h t r u c => fun _ => resultOrError_errTop g env _ _ _ _,
   fun g env h t r c u roles => fun _ => statusAndCheck_errTop g env _ _ _,
   fun g env h t r c u roles => fun _ => statusAndCheck_errTop g env _ _ _,
   fun g env h t r c u roles => fun _ => statusAndCheck_errTop g env _ _ _,
   fun g env h t r c u roles => fun _ => statusAndCheck_errTop g env _ _ _,
   by
    intro g env h t r u
    rw [GetUserFederatedIdentities_eq]
    exact fun _ => resultOrError_errTop g env _ _ _ _,
   fun g env h t r u pid f => fun _ => statusAndCheck_errTop g env _ _ _,
   fun g env h t r u pid => fun _ => statusAndCheck_errTop g env _ _ _,
   fun g env h t r o => fun _ => resultOrError_errTop g env _ _ _ _,
   fun g env h t r o => fun _ => resultOrError_errTop g env _ _ _ _,
   fun g env h t r role => fun _ => idOrError_errTop g env _ _ _,
   fun g env h t r rn => fun _ => resultOrError_errTop g env _ _ _ _,
   fun g env h t r rid => fun _ => resultOrError_errTop g env _ _ _ _,
   by
    intro g env h t r p
    unfold GoKeycloak.GetRealmRoles GetQueryParams
    cases hq : env.queryParams (.roles p) with
    | error e => simp [hq]
    | ok qp =>
      simp only [hq]
      exact fun _ => resultOrError_errTop g env _ _ _ _,
   fun g env h t r u => fun _ => resultOrError_errTop g env _ _ _ _,
   fun g env h t r gid => fun _ => resultOrError_errTop g env _ _ _ _,
   fun g env h t r rn role => fun _ => statusAndCheck_errTop g env _ _ _,
   fun g env h t r rid role => fun _ => statusAndCheck_errTop g env _ _ _,
   fun g env h t r rn => fun _ => statusAndCheck_errTop g env _ _ _,
   fun g env h t r u roles => fun _ => statusAndCheck_errTop g env _ _ _,
   fun g env h t r u roles => fun _ => statusAndCheck_errTop g env _ _ _,
   fun g env h t r gid roles => fun _ => statusAndCheck_errTop g env _ _ _,
   fun g env h t r gid roles => fun _ => statusAndCheck_errTop g env _ _ _,
   fun g env h t r rn roles => fun _ => statusAndCheck_errTop g env _ _ _,
   fun g env h t r rn roles => fun _ => statusAndCheck_errTop g env _ _ _,
   fun g env h t r rn => fun _ => resultOrError_errTop g env _ _ _ _,
   fun g env h t r rid => fun _ => resultOrError_errTop g env _ _ _ _,
   fun g env h t r rid => fun _ => resultOrError_errTop g env _ _ _ _,
   fun g env h t r u => fun _ => resultOrError_errTop g env _ _ _ _,
   fun g env h t r gid => fun _ => resultOrError_errTop g env _ _ _ _,
   fun g env h t r u => fun _ => resultOrError_errTop g env _ _ _ _,
   fun g env h t r gid => fun _ => resultOrError_errTop g env _ _ _ _,
   fun g env h t r o => fun _ => resultOrError_errTop g env _ _ _ _,
   fun g env h ut r aud rm ps => fun _ => resultOrError_errTop g env _ _ _ _⟩

/-- Witness for C3 at a concrete input: against an environment in which every
request dies on the wire, DeleteUser reports exactly its static
description. -/
theorem static_error_description_witness :
    errTopD (gDemo.DeleteUser envDown [] "tok" "master" "u1").err = "could not delete user" :=
  static_error_description.2.1 gDemo envDown [] "tok" "master" "u1"
    (List.cons_ne_nil _ _) rfl

end GoKeycloakModel

namespace GoKeycloakModel

theorem getD_append_mid (l : List HVal) (v d : HVal) (rest : List HVal) :
    ((l ++ [v]) ++ rest).getD l.length d = v := by
  rw [List.append_assoc, List.getD_eq_getElem?_getD, List.getElem?_append_right (Nat.le_refl _)]
  simp

theorem filter_key_map (key : String) (vs : List String) :
    ((vs.map (fun v => (key, v))).filter (fun kv => kv.1 == key)).map Prod.snd = vs := by
  induction vs with
  | nil => rfl
  | cons a tl ih => simp [ih]

theorem formData_no_permission_key (o : RequestingPartyTokenOptions) (h : Heap) :
    (o.FormData h).filter (fun kv => kv.1 == "permission") = [] := by
  unfold RequestingPartyTokenOptions.FormData
  cases o.GrantType <;> cases o.Audience <;> cases o.ResponseMode <;> simp

/-- C5: each operation sends the HTTP verb and URL path fixed for its
endpoint — DeleteUser sends DELETE to the admin realm path `users/userID`;
SetPassword sends PUT to `users/userID/reset-password` with a body of type
`password` holding the given password and temporary flag (through the
pointers it allocates); and the requesting-party call posts to the realm's
openid-connect token endpoint with one `permission` form value per element of
the dereferenced options.Permissions. -/
theorem fixed_verb_and_path :
    (∀ (g : GoKeycloak) (env : Env) (h : Heap) (t r u : String),
      (g.DeleteUser env h t r u).trace =
        [{ verb := "DELETE",
           url := String.intercalate "/" [g.basePath, "admin", "realms", r, "users", u],
           bearer := t }]) ∧
    (∀ (g : GoKeycloak) (env : Env) (h : Heap) (t u r pw : String) (tmp : Bool),
      ∃ a b c : Ptr,
        (g.SetPassword env h t u r pw tmp).trace =
          [{ verb := "PUT",
             url := String.intercalate "/"
               [g.basePath, "admin", "realms", r, "users", u, "reset-password"],
             bearer := t,
             body := .passwordBody { Password := some a, Temporary := some b, «Type» := some c } }] ∧
        readStr (g.SetPassword env h t u r pw tmp).heap a = pw ∧
        readBool (g.SetPassword env h t u r pw tmp).heap b = tmp ∧
        readStr (g.SetPassword env h t u r pw tmp).heap c = "password") ∧
    (∀ (g : GoKeycloak) (env : Env) (h : Heap) (t r : String) (o : RequestingPartyTokenOptions),
      (g.getRequestingParty env h t r o).1.verb = "POST" ∧
      (g.getRequestingParty env h t r o).1.url =
        String.intercalate "/" [g.basePath, "realms", r, g.Config.openIDConnect, "token"] ∧
      ((g.getRequestingParty env h t r o).1.formData.filter (fun kv => kv.1 == "permission")).map
          Prod.snd = PStringSlice h o.Permissions) :=
  ⟨fun g env h t r u => statusAndCheck_trace g env _ _ _,
   by
    intro g env h t u r pw tmp
    unfold GoKeycloak.SetPassword StringP BoolP
    refine ⟨h.length, h.length + 1, h.length + 2, ?_, ?_, ?_, ?_⟩
    · rw [statusAndCheck_trace]
      simp [RestyRequest.Put, RestyRequest.SetBody, GoKeycloak.GetRequestWithBearerAuth,
        GoKeycloak.getAdminRealmURL]
    · rw [statusAndCheck_heap]
      unfold readStr
      rw [List.append_assoc (h ++ [HVal.str pw]) [HVal.bool tmp] [HVal.str "password"],
        getD_append_mid]
    · rw [statusAndCheck_heap]
      unfold readBool
      have hb : h.length + 1 = (h ++ [HVal.str pw]).length := by simp
      rw [hb, getD_append_mid]
    · rw [statusAndCheck_heap]
      unfold readStr
      have hc : h.length + 2 = ((h ++ [HVal.str pw]) ++ [HVal.bool tmp]).length := by simp
      rw [hc, getD_append_length],
   by
    intro g env h t r o
    refine ⟨rfl, rfl, ?_⟩
    show ((((g.GetRequestWithBearerAuth t).SetFormData (o.FormData h)).SetFormDataFromValues
        [("permission", PStringSlice h o.Permissions)]).formData.filter
          (fun kv => kv.1 == "permission")).map Prod.snd = PStringSlice h o.Permissions
    unfold RestyRequest.SetFormData RestyRequest.SetFormDataFromValues GoKeycloak.GetRequestWithBearerAuth
    simp [List.filter_append, formData_no_permission_key, filter_key_map]⟩

end GoKeycloakModel

namespace GoKeycloakModel

/-- C8: GetUserByID called with an empty userID returns status 400 (Bad
Request), a nil user, and an error wrapping "userID shall not be empty"
inside the call's static description, without issuing any HTTP request; for
every non-empty userID exactly one request is issued. -/
theorem getUserByID_empty_guard :
    ∀ (g : GoKeycloak) (env : Env) (h : Heap) (t r u : String),
      (u = "" →
        (g.GetUserByID env h t r u).status = 400 ∧
        (g.GetUserByID env h t r u).result = none ∧
        (g.GetUserByID env h t r u).err =
          some (.wrap (.new "userID shall not be empty") "could not get user by id") ∧
        (g.GetUserByID env h t r u).trace = []) ∧
      (u ≠ "" → (g.GetUserByID env h t r u).trace.length = 1) := by
  intro g env h t r u
  constructor
  · intro hu
    unfold GoKeycloak.GetUserByID
    simp [hu]
  · intro hu
    unfold GoKeycloak.GetUserByID
    simp [hu, resultOrError_trace]

/-- Witness for C8 at concrete inputs: the empty userID yields the local 400
with no request, and a non-empty userID yields exactly one request. -/
theorem getUserByID_empty_guard_witness :
    (gDemo.GetUserByID env200 [] "tok" "master" "").status = 400 ∧
    (gDemo.GetUserByID env200 [] "tok" "master" "u1").trace.length = 1 :=
  ⟨((getUserByID_empty_guard gDemo env200 [] "tok" "master" "").1 rfl).1,
   (getUserByID_empty_guard gDemo env200 [] "tok" "master" "u1").2 (by decide)⟩

/-- C10: the deprecated wrappers are extensionally equal to their
replacements — AddClientRoleToUser returns the same (status, error) pair (in
fact the same whole outcome) as AddClientRolesToUser, and
DeleteClientRoleFromUser the same as DeleteClientRolesFromUser. -/
theorem deprecated_wrappers_equal :
    (∀ (g : GoKeycloak) (env : Env) (h : Heap) (t r c u : String) (roles : List Role),
      ((g.AddClientRoleToUser env h t r c u roles).status,
          (g.AddClientRoleToUser env h t r c u roles).err) =
        ((g.AddClientRolesToUser env h t r c u roles).status,
          (g.AddClientRolesToUser env h t r c u roles).err) ∧
      g.AddClientRoleToUser env h t r c u roles = g.AddClientRolesToUser env h t r c u roles) ∧
    (∀ (g : GoKeycloak) (env : Env) (h : Heap) (t r c u : String) (roles : List Role),
      ((g.DeleteClientRoleFromUser env h t r c u roles).status,
          (g.DeleteClientRoleFromUser env h t r c u roles).err) =
        ((g.DeleteClientRolesFromUser env h t r c u roles).status,
          (g.DeleteClientRolesFromUser env h t r c u roles).err) ∧
      g.DeleteClientRoleFromUser env h t r c u roles =
        g.DeleteClientRolesFromUser env h t r c u roles) :=
  ⟨fun _ _ _ _ _ _ _ _ => ⟨rfl, rfl⟩, fun _ _ _ _ _ _ _ _ => ⟨rfl, rfl⟩⟩

end GoKeycloakModel

namespace GoKeycloakModel

theorem theReq_resultOrError {α : Type} (g : GoKeycloak) (env : Env) (h : Heap)
    (req : HttpRequest) (m : String) (decode : HttpResponse → α) :
    theReq (resultOrError g env h req m decode) = req := by
  unfold theReq
  rw [resultOrError_trace]
  rfl

theorem getD_append_head (l : List HVal) (v : HVal) (rest : List HVal) (d : HVal) :
    (l ++ (v :: rest)).getD l.length d = v := by
  rw [List.getD_eq_getElem?_getD, List.getElem?_append, if_neg (Nat.lt_irrefl _)]
  simp

/-- C9: GetRequestingPartyPermissions always sends response_mode
`"permissions"` and GetRequestingPartyPermissionDecision always sends
response_mode `"decision"`, overriding whatever ResponseMode value the caller
placed in the options; likewise EvaluatePermission always sends grant type
`"urn:ietf:params:oauth:grant-type:uma-ticket"` regardless of its inputs. -/
theorem response_mode_and_grant_type_forced :
    (∀ (g : GoKeycloak) (env : Env) (h : Heap) (t r : String) (o : RequestingPartyTokenOptions),
      (theReq (g.GetRequestingPartyPermissions env h t r o)).formData.lookup "response_mode" =
        some "permissions") ∧
    (∀ (g : GoKeycloak) (env : Env) (h : Heap) (t r : String) (o : RequestingPartyTokenOptions),
      (theReq (g.GetRequestingPartyPermissionDecision env h t r o)).formData.lookup
          "response_mode" = some "decision") ∧
    (∀ (g : GoKeycloak) (env : Env) (h : Heap) (ut r aud rm : String) (ps : List String),
      (theReq (g.EvaluatePermission env h ut r aud rm ps)).formData.lookup "grant_type" =
        some "urn:ietf:params:oauth:grant-type:uma-ticket") :=
  ⟨by
    intro g env h t r o
    unfold GoKeycloak.GetRequestingPartyPermissions StringP
    rw [theReq_resultOrError]
    unfold GoKeycloak.requestingPartyRequest RestyRequest.SetFormData
      RestyRequest.SetFormDataFromValues RestyRequest.Post GoKeycloak.GetRequestWithBearerAuth
      RequestingPartyTokenOptions.FormData
    cases o.GrantType <;> cases o.Audience <;>
      simp [List.lookup, readStr, getD_append_length],
   by
    intro g env h t r o
    unfold GoKeycloak.GetRequestingPartyPermissionDecision StringP
    rw [theReq_resultOrError]
    unfold GoKeycloak.requestingPartyRequest RestyRequest.SetFormData
      RestyRequest.SetFormDataFromValues RestyRequest.Post GoKeycloak.GetRequestWithBearerAuth
      RequestingPartyTokenOptions.FormData
    cases o.GrantType <;> cases o.Audience <;>
      simp [List.lookup, readStr, getD_append_length],
   by
    intro g env h ut r aud rm ps
    unfold GoKeycloak.EvaluatePermission GoKeycloak.GetRequestingPartyToken StringP StrsP
    rw [theReq_resultOrError]
    unfold GoKeycloak.requestingPartyRequest RestyRequest.SetFormData
      RestyRequest.SetFormDataFromValues RestyRequest.Post GoKeycloak.GetRequestWithBearerAuth
      RequestingPartyTokenOptions.FormData
    have hread : readStr (h ++ [HVal.str "urn:ietf:params:oauth:grant-type:uma-ticket",
        HVal.str aud, HVal.str rm, HVal.strs ps]) h.length =
        "urn:ietf:params:oauth:grant-type:uma-ticket" := by
      unfold readStr
      rw [getD_append_head]
    simp [List.lookup, hread]⟩

end GoKeycloakModel

namespace GoKeycloakModel

/-- C6: no public operation mutates a data-transfer structure supplied by the
caller.  The DTO arguments themselves are passed by value, and every
heap cell existing before a call is untouched afterwards: each operation that
receives a DTO, params struct or requesting-party options only ever extends
the heap with freshly allocated cells, so every pointer held by the caller
dereferences to the same value after the call. -/
theorem no_caller_mutation :
    (∀ (g : GoKeycloak) (env : Env) (h : Heap) (t r : String) (user : User),
      ∃ ext, (g.CreateUser env h t r user).heap = h ++ ext) ∧
    (∀ (g : GoKeycloak) (env : Env) (h : Heap) (t r : String) (p : GetUsersParams),
      ∃ ext, (g.GetUserCount env h t r p).heap = h ++ ext) ∧
    (∀ (g : GoKeycloak) (env : Env) (h : Heap) (t r u : String) (p : GetGroupsParams),
      ∃ ext, (g.GetUserGroups env h t r u p).heap = h ++ ext) ∧
    (∀ (g : GoKeycloak) (env : Env) (h : Heap) (t r : String) (p : GetUsersParams),
      ∃ ext, (g.GetUsers env h t r p).heap = h ++ ext) ∧
    (∀ (g : GoKeycloak) (env : Env) (h : Heap) (t r rn : String) (p : GetUsersByRoleParams),
      ∃ ext, (g.GetUsersByRoleName env h t r rn p).heap = h ++ ext) ∧
    (∀ (g : GoKeycloak) (env : Env) (h : Heap) (t r c rn : String) (p : GetUsersByRoleParams),
      ∃ ext, (g.GetUsersByClientRoleName env h t r c rn p).heap = h ++ ext) ∧
    (∀ (g : GoKeycloak) (env : Env) (h : Heap) (t u r pw : String) (tmp : Bool),
      ∃ ext, (g.SetPassword env h t u r pw tmp).heap = h ++ ext) ∧
    (∀ (g : GoKeycloak) (env : Env) (h : Heap) (t r : String) (user : User),
      ∃ ext, (g.UpdateUser env h t r user).heap = h ++ ext) ∧
    (∀ (g : GoKeycloak) (env : Env) (h : Heap) (t r c u : String) (roles : List Role),
      ∃ ext, (g.AddClientRolesToUser env h t r c u roles).heap = h ++ ext) ∧
    (∀ (g : GoKeycloak) (env : Env) (h : Heap) (t r c u : String) (roles : List Role),
      ∃ ext, (g.AddClientRoleToUser env h t r c u roles).heap = h ++ ext) ∧
    (∀ (g : GoKeycloak) (env : Env) (h : Heap) (t r c u : String) (roles : List Role),
      ∃ ext, (g.DeleteClientRolesFromUser env h t r c u roles).heap = h ++ ext) ∧
    (∀ (g : GoKeycloak) (env : Env) (h : Heap) (t r c u : String) (roles : List Role),
      ∃ ext, (g.DeleteClientRoleFromUser env h t r c u roles).heap = h ++ ext) ∧
    (∀ (g : GoKeycloak) (env : Env) (h : Heap) (t r u pid : String) (f : FederatedIdentityRepresentation),
      ∃ ext, (g.CreateUserFederatedIdentity env h t r u pid f).heap = h ++ ext) ∧
    (∀ (g : GoKeycloak) (env : Env) (h : Heap) (t r : String) (o : RequestingPartyTokenOptions),
      ∃ ext, (g.GetRequestingPartyPermissions env h t r o).heap = h ++ ext) ∧
    (∀ (g : GoKeycloak) (env : Env) (h : Heap) (t r : String) (o : RequestingPartyTokenOptions),
      ∃ ext, (g.GetRequestingPartyPermissionDecision env h t r o).heap = h ++ ext) ∧
    (∀ (g : GoKeycloak) (env : Env) (h : Heap) (t r : String) (role : Role),
      ∃ ext, (g.CreateRealmRole env h t r role).heap = h ++ ext) ∧
    (∀ (g : GoKeycloak) (env : Env) (h : Heap) (t r : String) (p : GetRoleParams),
      ∃ ext, (g.GetRealmRoles env h t r p).heap = h ++ ext) ∧
    (∀ (g : GoKeycloak) (env : Env) (h : Heap) (t r rn : String) (role : Role),
      ∃ ext, (g.UpdateRealmRole env h t r rn role).heap = h ++ ext) ∧
    (∀ (g : GoKeycloak) (env : Env) (h : Heap) (t r rid : String) (role : Role),
      ∃ ext, (g.UpdateRealmRoleByID env h t r rid role).heap = h ++ ext) ∧
    (∀ (g : GoKeycloak) (env : Env) (h : Heap) (t r u : String) (roles : List Role),
      ∃ ext, (g.AddRealmRoleToUser env h t r u roles).heap = h ++ ext) ∧
    (∀ (g : GoKeycloak) (env : Env) (h : Heap) (t r u : String) (roles : List Role),
      ∃ ext, (g.DeleteRealmRoleFromUser env h t r u roles).heap = h ++ ext) ∧
    (∀ (g : GoKeycloak) (env : Env) (h : Heap) (t r gid : String) (roles : List Role),
      ∃ ext, (g.AddRealmRoleToGroup env h t r gid roles).heap = h ++ ext) ∧
    (∀ (g : GoKeycloak) (env : Env) (h : Heap) (t r gid : String) (roles : List Role),
      ∃ ext, (g.DeleteRealmRoleFromGroup env h t r gid roles).heap = h ++ ext) ∧
    (∀ (g : GoKeycloak) (env : Env) (h : Heap) (t r rn : String) (roles : List Role),
      ∃ ext, (g.AddRealmRoleComposite env h t r rn roles).heap = h ++ ext) ∧
    (∀ (g : GoKeycloak) (env : Env) (h : Heap) (t r rn : String) (roles : List Role),
      ∃ ext, (g.DeleteRealmRoleComposite env h t r rn roles).heap = h ++ ext) ∧
    (∀ (g : GoKeycloak) (env : Env) (h : Heap) (t r : String) (o : RequestingPartyTokenOptions),
      ∃ ext, (g.GetRequestingPartyToken env h t r o).heap = h ++ ext) ∧
    (∀ (g : GoKeycloak) (env : Env) (h : Heap) (ut r aud rm : String) (ps : List String),
      ∃ ext, (g.EvaluatePermission env h ut r aud rm ps).heap = h ++ ext) :=
  ⟨fun g env h t r user => exists_ext_of_eq (idOrError_heap g env _ _ _),
   by
    intro g env h t r p
    unfold GoKeycloak.GetUserCount GetQueryParams
    cases hq : env.queryParams (.users p) with
    | error e => exact ⟨[], by simp [hq]⟩
    | ok qp =>
      refine ⟨[], ?_⟩
      simp only [hq]
      split <;> simp,
   by
    intro g env h t r u p
    unfold GoKeycloak.GetUserGroups GetQueryParams
    cases hq : env.queryParams (.groups p) with
    | error e => exact ⟨[], by simp [hq]⟩
    | ok qp => exact ⟨[], by simp [hq, resultOrError_heap]⟩,
   by
    intro g env h t r p
    unfold GoKeycloak.GetUsers GetQueryParams
    cases hq : env.queryParams (.users p) with
    | error e => exact ⟨[], by simp [hq]⟩
    | ok qp => exact ⟨[], by simp [hq, resultOrError_heap]⟩,
   by
    intro g env h t r rn p
    unfold GoKeycloak.GetUsersByRoleName GetQueryParams
    cases hq : env.queryParams (.usersByRole p) with
    | error e => exact ⟨[], by simp [hq]⟩
    | ok qp => exact ⟨[], by simp [hq, resultOrError_heap]⟩,
   by
    intro g env h t r c rn p
    unfold GoKeycloak.GetUsersByClientRoleName GetQueryParams
    cases hq : env.queryParams (.usersByRole p) with
    | error e => exact ⟨[], by simp [hq]⟩
    | ok qp => exact ⟨[], by simp [hq, resultOrError_heap]⟩,
   by
    intro g env h t u r pw tmp
    refine ⟨[HVal.str pw, HVal.bool tmp, HVal.str "password"], ?_⟩
    unfold GoKeycloak.SetPassword StringP BoolP
    rw [statusAndCheck_heap]
    simp,
   fun g env h t r user => exists_ext_of_eq (statusAndCheck_heap g env _ _ _),
   fun g env h t r c u roles => exists_ext_of_eq (statusAndCheck_heap g env _ _ _),
   fun g env h t r c u roles => exists_ext_of_eq (statusAndCheck_heap g env _ _ _),
   fun g env h t r c u roles => exists_ext_of_eq (statusAndCheck_heap g env _ _ _),
   fun g env h t r c u roles => exists_ext_of_eq (statusAndCheck_heap g env _ _ _),
   fun g env h t r u pid f => exists_ext_of_eq (statusAndCheck_heap g env _ _ _),
   fun g env h t r o => ⟨[HVal.str "permissions"], resultOrError_heap g env _ _ _ _⟩,
   fun g env h t r o => ⟨[HVal.str "decision"], resultOrError_heap g env _ _ _ _⟩,
   fun g env h t r role => exists_ext_of_eq (idOrError_heap g env _ _ _),
   by
    intro g env h t r p
    unfold GoKeycloak.GetRealmRoles GetQueryParams
    cases hq : env.queryParams (.roles p) with
    | error e => exact ⟨[], by simp [hq]⟩
    | ok qp => exact ⟨[], by simp [hq, resultOrError_heap]⟩,
   fun g env h t r rn role => exists_ext_of_eq (statusAndCheck_heap g env _ _ _),
   fun g env h t r rid role => exists_ext_of_eq (statusAndCheck_heap g env _ _ _),
   fun g env h t r u roles => exists_ext_of_eq (statusAndCheck_heap g env _ _ _),
   fun g env h t r u roles => exists_ext_of_eq (statusAndCheck_heap g env _ _ _),
   fun g env h t r gid roles => exists_ext_of_eq (statusAndCheck_heap g env _ _ _),
   fun g env h t r gid roles => exists_ext_of_eq (statusAndCheck_heap g env _ _ _),
   fun g env h t r rn roles => exists_ext_of_eq (statusAndCheck_heap g env _ _ _),
   fun g env h t r rn roles => exists_ext_of_eq (statusAndCheck_heap g env _ _ _),
   fun g env h t r o => exists_ext_of_eq (resultOrError_heap g env _ _ _ _),
   by
    intro g env h ut r aud rm ps
    refine ⟨[HVal.str "urn:ietf:params:oauth:grant-type:uma-ticket",
      HVal.str aud, HVal.str rm, HVal.strs ps], ?_⟩
    unfold GoKeycloak.EvaluatePermission GoKeycloak.GetRequestingPartyToken StringP StrsP
    rw [resultOrError_heap]
    simp⟩

end GoKeycloakModel
